import Mathlib

/-
  Shallow embedding of the scoring core of the capability-coordination-framework
  repository: the ATCFCalculator class (assets/js/atcf-calculator.js) and the
  CoordinationAssessment class (assets/js/coordination.js).

  Conventions of the embedding:
  * JS numbers that stay in the rational field are modelled as ℚ; values produced
    through Math.exp / Math.sqrt are modelled in ℝ with Real.exp / Real.sqrt.
  * JS code that can throw (reduce of an empty array with no initial value,
    property access on undefined) is modelled with Option: none models a thrown
    TypeError.
  * The JS idiom `x || d` on numbers (0 is falsy) is modelled by jsOr0 / jsOrOpt.
  * JS objects used as string-keyed maps are modelled as association lists in
    insertion order; JS Set-based set operations are modelled with List.toFinset.
  * The mutable `this.weights` field of ATCFCalculator is modelled by explicit
    state passing of a Calculator value.
-/

open scoped Classical

namespace CCF

/-- JS `v || d` for a number known to be present: 0 is falsy. -/
def jsOr0 (v d : ℚ) : ℚ := if v = 0 then d else v

/-- JS `v || d` where `v` may be undefined (none) or a number (0 is falsy). -/
def jsOrOpt (v : Option ℚ) (d : ℚ) : ℚ :=
  match v with
  | none => d
  | some x => if x = 0 then d else x

/-- JS truthiness of a possibly-undefined string: undefined and "" are falsy. -/
def jsTruthyStr (v : Option String) : Bool :=
  match v with
  | none => false
  | some s => decide (s ≠ "")

/-- JS `Math.max(0, Math.min(1, x))`. -/
def clamp01 (x : ℝ) : ℝ := max 0 (min 1 x)

/-- JS `String.prototype.includes`: `sub` occurs contiguously in `s`. -/
def strContains (s sub : String) : Bool :=
  (List.range (s.toList.length + 1)).any fun i => sub.toList.isPrefixOf (s.toList.drop i)

/-- First field of `str.split('_')`, as used for goal / modification types. -/
def splitHead (s : String) : String := (s.splitOn "_").headD ""

/-- Association-list lookup by key (JS object property access). -/
def alookup {β : Type} (l : List (String × β)) (k : String) : Option β :=
  match l with
  | [] => none
  | (a, b) :: rest => if a = k then some b else alookup rest k

/-- All ordered pairs (i, j) with i < j of a list, in the order produced by the
nested `for` loops of `checkComponentCompatibility`. -/
def listPairs {α : Type} : List α → List (α × α)
  | [] => []
  | x :: xs => (xs.map fun y => (x, y)) ++ listPairs xs

/-- The four ATCF weight coefficients (alpha, beta, gamma, delta).  Also reused
for the per-culture `atcf_modifiers` records. -/
structure Weights where
  alpha : ℚ
  beta : ℚ
  gamma : ℚ
  delta : ℚ
deriving DecidableEq

/-- JS `Object.values(this.weights).reduce((a, b) => a + b, 0)`. -/
def Weights.total (w : Weights) : ℚ := w.alpha + w.beta + w.gamma + w.delta

/-- One entry of `identity_history`. -/
structure HistoryPoint where
  timestamp : ℚ
  identity_kernel : List String
deriving DecidableEq

/-- An `authenticity` record of `broa_data`. -/
structure AuthRecord where
  identity_kernel : Option (List String)
  value_alignment : ℚ
  self_consistency : ℚ
deriving DecidableEq

/-- JS `broa_data`: beliefs/rules/ontology are string-keyed JS objects (association
lists), any of the four members may be absent. -/
structure BroaData where
  beliefs : Option (List (String × ℚ))
  rules : Option (List (String × String))
  ontology : Option (List (String × String))
  authenticity : Option AuthRecord
deriving DecidableEq

/-- JS `uev_data`: four named components, each a map whose numeric values are read
with `Object.values` (keys never matter, so each component is its value list). -/
structure UevData where
  global_feeling_tone : List ℚ
  emotional_motivation : List ℚ
  rational_deliberation : List ℚ
  action_readiness : List ℚ
deriving DecidableEq

/-- JS `future_projections`. -/
structure FutureProjections where
  goals : Option (List String)
  timeline : Option String
  alignment_with_identity : ℚ
deriving DecidableEq

/-- JS `self_modification_data`. -/
structure SelfModData where
  modification_history : Option (List String)
  coherence_maintenance_capacity : ℚ
deriving DecidableEq

/-- An agent profile as consumed by the two calculators. -/
structure AgentData where
  cultural_background : Option String
  identity_kernel : Option (List String)
  identity_history : Option (List HistoryPoint)
  uev_data : UevData
  broa_data : BroaData
  future_projections : FutureProjections
  self_modification_data : SelfModData
  capabilities : Option (List String)
deriving DecidableEq

/-- The mutable state of an ATCFCalculator instance. -/
structure Calculator where
  weights : Weights
  temporalDecayConstant : ℚ
deriving DecidableEq

/-- The constructor: `validateWeights` throws unless |sum - 1| ≤ 0.001;
a successful construction stores the weights and sets the decay constant 30. -/
def mkCalculator (w : Weights) : Option Calculator :=
  if |w.total - 1| ≤ 0.001 then some ⟨w, 30⟩ else none

/-- JS `calculateIdentitySimilarity(kernel1, kernel2)`: Jaccard similarity of the
two tag sets, 0 when either is missing or empty (an empty array is truthy in
JS but is caught by the `length === 0` check and also yields 0). -/
def calculateIdentitySimilarity (kernel1 kernel2 : List String) : ℚ :=
  if kernel1 = [] ∨ kernel2 = [] then 0
  else
    let set1 := kernel1.toFinset
    let set2 := kernel2.toFinset
    ((set1 ∩ set2).card : ℚ) / ((set1 ∪ set2).card : ℚ)

/-- JS `calculateHistoricalContinuity(identityHistory, currentTime)`: accumulates
`exp(-timeDiff/decay)`-weighted Jaccard similarity of each snapshot kernel
against the kernel of `identityHistory[0]`, then divides by the weight total. -/
noncomputable def calculateHistoricalContinuity (c : Calculator)
    (identityHistory : Option (List HistoryPoint)) (currentTime : ℚ) : ℝ :=
  match identityHistory with
  | none => 0
  | some [] => 0
  | some (h0 :: rest) =>
    let step : ℝ × ℝ → HistoryPoint → ℝ × ℝ := fun acc historyPoint =>
      let timeDiff : ℚ := (currentTime - historyPoint.timestamp) / (1000 * 60 * 60 * 24)
      let temporalWeight : ℝ := Real.exp (-((timeDiff : ℝ) / (c.temporalDecayConstant : ℝ)))
      let identityPreservation : ℚ :=
        calculateIdentitySimilarity h0.identity_kernel historyPoint.identity_kernel
      (acc.1 + temporalWeight * (identityPreservation : ℝ), acc.2 + temporalWeight)
    let tot := (h0 :: rest).foldl step (0, 0)
    if 0 < tot.2 then tot.1 / tot.2 else 0

/-- JS `calculateCorrelation(arr1, arr2)`: Pearson correlation; 0 on length
mismatch, empty input, or a zero denominator.  The JS code tests
`denominator === 0` where `denominator = Math.sqrt(sumSq1 * sumSq2)`; for the
nonnegative radicand this holds exactly when `sumSq1 * sumSq2 = 0`, which is
how the guard is phrased here. -/
noncomputable def calculateCorrelation (arr1 arr2 : List ℚ) : ℝ :=
  if arr1.length ≠ arr2.length ∨ arr1 = [] then 0
  else
    let mean1 : ℚ := arr1.sum / arr1.length
    let mean2 : ℚ := arr2.sum / arr2.length
    let numerator : ℚ := ((arr1.zip arr2).map fun p => (p.1 - mean1) * (p.2 - mean2)).sum
    let sumSq1 : ℚ := (arr1.map fun v => (v - mean1) ^ 2).sum
    let sumSq2 : ℚ := (arr2.map fun v => (v - mean2) ^ 2).sum
    if sumSq1 * sumSq2 = 0 then 0
    else (numerator : ℝ) / Real.sqrt ((sumSq1 : ℝ) * (sumSq2 : ℝ))

/-- JS `checkComponentCompatibility(components)`: mean absolute pairwise
correlation over all i < j pairs; 0.5 when there are no pairs. -/
noncomputable def checkComponentCompatibility (components : List (List ℚ)) : ℝ :=
  let cors := (listPairs components).map fun p => |calculateCorrelation p.1 p.2|
  if 0 < cors.length then cors.sum / (cors.length : ℝ) else 0.5

/-- The four uev components in the order they are listed in `calculateTCF`. -/
def uevComponents (uevData : UevData) : List (List ℚ) :=
  [uevData.global_feeling_tone, uevData.emotional_motivation,
   uevData.rational_deliberation, uevData.action_readiness]

/-- JS `checkTemporalContinuity(uevData)`: 1 minus the variance of all values of
all components, floored at 0.  `allValues.reduce((a, b) => a + b)` throws on an
empty array, modelled by none. -/
def checkTemporalContinuity (uevData : UevData) : Option ℚ :=
  let allValues := uevData.global_feeling_tone ++ uevData.emotional_motivation ++
    uevData.rational_deliberation ++ uevData.action_readiness
  if allValues = [] then none
  else
    let mean : ℚ := allValues.sum / allValues.length
    let variance : ℚ := (allValues.map fun val => (val - mean) ^ 2).sum / allValues.length
    some (max 0 (1 - variance))

/-- JS `calculateTCF(uevData) = 0.7 * compatibilityScore + 0.3 * temporalContinuity`. -/
noncomputable def calculateTCF (uevData : UevData) : Option ℝ :=
  let compatibilityScore := checkComponentCompatibility (uevComponents uevData)
  (checkTemporalContinuity uevData).map fun temporalContinuity =>
    0.7 * compatibilityScore + 0.3 * (temporalContinuity : ℝ)

/-- JS `calculateBeliefConsistency(beliefs)`: 0.5 when beliefs is missing; on an
empty beliefs object `values.reduce((a, b) => a + b)` throws (none); else a
clamped variance-target score. -/
def calculateBeliefConsistency (beliefs : Option (List (String × ℚ))) : Option ℚ :=
  match beliefs with
  | none => some 0.5
  | some l =>
    let values := l.map Prod.snd
    if values = [] then none
    else
      let mean : ℚ := values.sum / values.length
      let variance : ℚ := (values.map fun val => (val - mean) ^ 2).sum / values.length
      let optimalVariance : ℚ := 0.1
      let varianceScore := 1 - |variance - optimalVariance|
      some (max 0 (min 1 varianceScore))

/-- JS `calculateRuleCoherence(rules)`: 0.5 when missing, else `min(1, count / 5)`. -/
def calculateRuleCoherence (rules : Option (List (String × String))) : ℚ :=
  match rules with
  | none => 0.5
  | some l => min 1 ((l.length : ℚ) / 5)

/-- JS `calculateOntologyAlignment(ontology)`: fraction of the three expected
categories that are present (truthy) in the ontology record. -/
def calculateOntologyAlignment (ontology : Option (List (String × String))) : ℚ :=
  match ontology with
  | none => 0.5
  | some o =>
    let expectedCategories := ["agency_conception", "time_orientation", "relationship_model"]
    let presentCategories := expectedCategories.filter fun cat => jsTruthyStr (alookup o cat)
    (presentCategories.length : ℚ) / (expectedCategories.length : ℚ)

/-- JS `calculateInternalCoherence(broaData)`: mean of the four checks; accessing
`broaData.authenticity.value_alignment` throws when authenticity is missing. -/
def calculateInternalCoherence (broaData : BroaData) : Option ℚ :=
  (calculateBeliefConsistency broaData.beliefs).bind fun beliefConsistency =>
    let ruleCoherence := calculateRuleCoherence broaData.rules
    let ontologyAlignment := calculateOntologyAlignment broaData.ontology
    match broaData.authenticity with
    | none => none
    | some auth =>
      let authenticityAlignment := jsOr0 auth.value_alignment 0.75
      some ((beliefConsistency + ruleCoherence + ontologyAlignment + authenticityAlignment) / 4)

/-- JS `calculatePresentIntegration(uevData, broaData) = 0.6 * TCF + 0.4 * internalCoherence`. -/
noncomputable def calculatePresentIntegration (uevData : UevData) (broaData : BroaData) :
    Option ℝ :=
  (calculateTCF uevData).bind fun tcfScore =>
    (calculateInternalCoherence broaData).map fun internalCoherence =>
      0.6 * tcfScore + 0.4 * (internalCoherence : ℝ)

/-- The goal/kernel overlap count and ratio of `calculateProjectionAlignment`. -/
def goalKernelAlignmentScore (goals : List String) (identityKernel : List String) : ℚ :=
  let goalKernelOverlap := (goals.filter fun goal =>
    identityKernel.any fun kernelElement =>
      strContains goal.toLower kernelElement.toLower ||
      strContains kernelElement.toLower goal.toLower).length
  (goalKernelOverlap : ℚ) / max (goals.length : ℚ) 1

/-- JS `calculateProjectionAlignment(projections, identityKernel)`: 0.5 when goals
or the kernel is missing; else the mean of the computed overlap score and the
stated alignment (`alignment_with_identity || alignmentScore`). -/
def calculateProjectionAlignment (projections : FutureProjections)
    (identityKernel : Option (List String)) : ℚ :=
  match projections.goals, identityKernel with
  | none, _ => 0.5
  | _, none => 0.5
  | some goals, some kernel =>
    let alignmentScore := goalKernelAlignmentScore goals kernel
    let explicitAlignment := jsOr0 projections.alignment_with_identity alignmentScore
    (alignmentScore + explicitAlignment) / 2

/-- JS `calculateGoalDiversity(goals)`: distinct goal-type count capped at 5. -/
def calculateGoalDiversity (goals : Option (List String)) : ℚ :=
  match goals with
  | none => 0
  | some [] => 0
  | some gs =>
    let uniqueGoalTypes := (gs.map splitHead).toFinset.card
    min 1 ((uniqueGoalTypes : ℚ) / 5)

/-- The static timeline-plausibility table of `assessTimelineRealism`. -/
def timelineMap : List (String × ℚ) :=
  [("1_year", 0.7), ("3_years", 0.8), ("5_years", 0.9), ("10_years", 0.8), ("20_years", 0.6)]

/-- JS `assessTimelineRealism(timeline) = timelineMap[timeline] || 0.5`. -/
def assessTimelineRealism (timeline : Option String) : ℚ :=
  jsOrOpt (timeline.bind fun t => alookup timelineMap t) 0.5

/-- JS `calculateAdaptiveCapacity(projections)`. -/
def calculateAdaptiveCapacity (projections : FutureProjections) : ℚ :=
  (calculateGoalDiversity projections.goals + assessTimelineRealism projections.timeline) / 2

/-- JS `calculateProspectiveCoherence = 0.6 * projectionAlignment + 0.4 * adaptiveCapacity`. -/
def calculateProspectiveCoherence (futureProjections : FutureProjections)
    (identityKernel : Option (List String)) : ℚ :=
  0.6 * calculateProjectionAlignment futureProjections identityKernel +
  0.4 * calculateAdaptiveCapacity futureProjections

/-- JS `assessModificationAbility(modData)`: 0.3 without a modification history
(an empty array is truthy and instead scores 0). -/
def assessModificationAbility (modData : SelfModData) : ℚ :=
  match modData.modification_history with
  | none => 0.3
  | some h =>
    let historyLength := h.length
    let diversityScore := (h.map splitHead).toFinset.card
    min 1 ((historyLength : ℚ) * 0.2 + (diversityScore : ℚ) * 0.1)

/-- JS `assessCoherenceMaintenance(modData) = coherence_maintenance_capacity || 0.5`. -/
def assessCoherenceMaintenance (modData : SelfModData) : ℚ :=
  jsOr0 modData.coherence_maintenance_capacity 0.5

/-- JS `calculateMetaConstructorCapacity = 0.5 * modificationAbility + 0.5 * coherenceMaintenance`. -/
def calculateMetaConstructorCapacity (selfModificationData : SelfModData) : ℚ :=
  0.5 * assessModificationAbility selfModificationData +
  0.5 * assessCoherenceMaintenance selfModificationData

/-- The interpretation record attached by `interpretATCFScore`. -/
structure Interpretation where
  level : String
  description : String
  recommendation : String
deriving DecidableEq

/-- JS `interpretATCFScore(score)`: five fixed bands on the (unclamped) total. -/
noncomputable def interpretATCFScore (score : ℝ) : Interpretation :=
  if 0.8 ≤ score then
    ⟨"excellent", "Excellent temporal coherence",
     "Maintain current practices and consider mentoring others"⟩
  else if 0.7 ≤ score then
    ⟨"good", "Good temporal coherence",
     "Continue current development with minor optimizations"⟩
  else if 0.5 ≤ score then
    ⟨"moderate", "Moderate temporal coherence",
     "Focus on strengthening weak components through targeted interventions"⟩
  else if 0.3 ≤ score then
    ⟨"low", "Low temporal coherence",
     "Comprehensive intervention recommended - consider temporal coherence therapy"⟩
  else
    ⟨"very_low", "Very low temporal coherence",
     "Immediate intervention required - consult with trained practitioner"⟩

/-- The record returned by `calculateATCF`. -/
structure ATCFResult where
  total_score : ℝ
  HC : ℝ
  PI : ℝ
  PC : ℝ
  MCC : ℝ
  weights : Weights
  assessment_timestamp : ℚ
  interpretation : Interpretation

/-- JS `calculateATCF(agentData, timeWindow)`: the four sub-scores combined by the
stored weights; every returned score is clamped to [0,1], the interpretation is
computed from the unclamped total.  none models a thrown TypeError from the
present-integration path. -/
noncomputable def calculateATCF (c : Calculator) (agentData : AgentData)
    (currentTime : ℚ) : Option ATCFResult :=
  let hc := calculateHistoricalContinuity c agentData.identity_history currentTime
  (calculatePresentIntegration agentData.uev_data agentData.broa_data).map fun pi =>
    let pc := calculateProspectiveCoherence agentData.future_projections agentData.identity_kernel
    let mcc := calculateMetaConstructorCapacity agentData.self_modification_data
    let totalScore : ℝ := (c.weights.alpha : ℝ) * hc + (c.weights.beta : ℝ) * pi +
      (c.weights.gamma : ℝ) * (pc : ℝ) + (c.weights.delta : ℝ) * (mcc : ℝ)
    { total_score := clamp01 totalScore
      HC := clamp01 hc
      PI := clamp01 pi
      PC := clamp01 (pc : ℝ)
      MCC := clamp01 (mcc : ℝ)
      weights := c.weights
      assessment_timestamp := currentTime
      interpretation := interpretATCFScore totalScore }

/-- JS `adaptForCulture(culturalContext, baseWeights)`: the per-culture modifier
table lives in external data (`window.FrameworkData.culturalFrameworks`), so it
is passed as the `table` parameter; an unknown or missing culture tag returns
the base weights unchanged, otherwise the elementwise product is renormalized
by its sum. -/
def adaptForCulture (table : String → Option Weights)
    (culturalContext : Option String) (baseWeights : Weights) : Weights :=
  match culturalContext.bind table with
  | none => baseWeights
  | some modifiers =>
    let adaptedWeights : Weights :=
      ⟨baseWeights.alpha * modifiers.alpha, baseWeights.beta * modifiers.beta,
       baseWeights.gamma * modifiers.gamma, baseWeights.delta * modifiers.delta⟩
    let total := adaptedWeights.total
    ⟨adaptedWeights.alpha / total, adaptedWeights.beta / total,
     adaptedWeights.gamma / total, adaptedWeights.delta / total⟩

/-- The record returned by `calculateCulturallyAdaptedATCF`: the ATCF result
plus the `cultural_adaptation` field it attaches. -/
structure CulturallyAdaptedResult where
  base : ATCFResult
  original_weights : Weights
  adapted_weights : Weights
  cultural_context : Option String

/-- JS `calculateCulturallyAdaptedATCF(agentData, timeWindow)`: sets
`this.weights` to the culture-adapted weights, runs `calculateATCF`, and
restores the original weights afterwards.  The second component is the
calculator state after the call; when the inner computation throws, the
mutated (unrestored) state is what remains. -/
noncomputable def calculateCulturallyAdaptedATCF (table : String → Option Weights)
    (c : Calculator) (agentData : AgentData) (currentTime : ℚ) :
    Option CulturallyAdaptedResult × Calculator :=
  let adaptedWeights := adaptForCulture table agentData.cultural_background c.weights
  let originalWeights := c.weights
  let cAdapted : Calculator := { c with weights := adaptedWeights }
  match calculateATCF cAdapted agentData currentTime with
  | none => (none, cAdapted)
  | some result =>
    (some { base := result
            original_weights := originalWeights
            adapted_weights := adaptedWeights
            cultural_context := agentData.cultural_background },
     { cAdapted with weights := originalWeights })

/-- Nested-object lookup `matrix[style1]?.[style2]`, where either style may be
undefined (an undefined index yields undefined). -/
def matrixLookup (m : List (String × List (String × ℚ)))
    (style1 style2 : Option String) : Option ℚ :=
  match style1, style2 with
  | some a, some b => (alookup m a).bind fun row => alookup row b
  | _, _ => none

/-- The `compatibilityMatrix` of `assessDecisionCompatibility`. -/
def decisionMatrix : List (String × List (String × ℚ)) :=
  [("individual_focused",
    [("individual_focused", 0.9), ("consensus_based", 0.4),
     ("hierarchical", 0.3), ("collaborative", 0.6)]),
   ("consensus_based",
    [("individual_focused", 0.4), ("consensus_based", 0.9),
     ("hierarchical", 0.5), ("collaborative", 0.8)])]

/-- JS `assessDecisionCompatibility(style1, style2) = matrix[style1]?.[style2] || 0.5`. -/
def assessDecisionCompatibility (style1 style2 : Option String) : ℚ :=
  jsOrOpt (matrixLookup decisionMatrix style1 style2) 0.5

/-- The `compatibilityMatrix` of `assessConflictCompatibility`. -/
def conflictMatrix : List (String × List (String × ℚ)) :=
  [("direct_communication",
    [("direct_communication", 0.9), ("harmony_preservation", 0.3),
     ("authority_based", 0.4), ("mediated_discussion", 0.7)]),
   ("harmony_preservation",
    [("direct_communication", 0.3), ("harmony_preservation", 0.9),
     ("authority_based", 0.6), ("mediated_discussion", 0.8)])]

/-- JS `assessConflictCompatibility`. -/
def assessConflictCompatibility (style1 style2 : Option String) : ℚ :=
  jsOrOpt (matrixLookup conflictMatrix style1 style2) 0.5

/-- The `compatibilityMatrix` of `assessGoalCompatibility`. -/
def goalMatrix : List (String × List (String × ℚ)) :=
  [("personal_achievement",
    [("personal_achievement", 0.8), ("collective_benefit", 0.4),
     ("hierarchical_alignment", 0.3), ("collaborative_outcome", 0.6)]),
   ("collective_benefit",
    [("personal_achievement", 0.4), ("collective_benefit", 0.9),
     ("hierarchical_alignment", 0.7), ("collaborative_outcome", 0.8)])]

/-- JS `assessGoalCompatibility`. -/
def assessGoalCompatibility (style1 style2 : Option String) : ℚ :=
  jsOrOpt (matrixLookup goalMatrix style1 style2) 0.5

/-- The `compatibilityMatrix` of `assessAgencyCompatibility`. -/
def agencyMatrix : List (String × List (String × ℚ)) :=
  [("independent",
    [("independent", 0.9), ("interdependent", 0.4),
     ("hierarchical", 0.3), ("collective", 0.5)]),
   ("interdependent",
    [("independent", 0.4), ("interdependent", 0.9),
     ("hierarchical", 0.6), ("collective", 0.8)])]

/-- JS `assessAgencyCompatibility`. -/
def assessAgencyCompatibility (agency1 agency2 : Option String) : ℚ :=
  jsOrOpt (matrixLookup agencyMatrix agency1 agency2) 0.5

/-- The `compatibilityMatrix` of `assessTimeCompatibility`. -/
def timeMatrix : List (String × List (String × ℚ)) :=
  [("future_focused",
    [("future_focused", 0.9), ("present_focused", 0.6),
     ("past_honoring", 0.4), ("cyclical_continuity", 0.5)]),
   ("cyclical_continuity",
    [("future_focused", 0.5), ("present_focused", 0.8),
     ("past_honoring", 0.8), ("cyclical_continuity", 0.9)])]

/-- JS `assessTimeCompatibility`. -/
def assessTimeCompatibility (time1 time2 : Option String) : ℚ :=
  jsOrOpt (matrixLookup timeMatrix time1 time2) 0.5

/-- The `compatibilityMatrix` of `assessRelationshipCompatibility`. -/
def relationshipMatrix : List (String × List (String × ℚ)) :=
  [("voluntary_association",
    [("voluntary_association", 0.9), ("embedded_obligation", 0.3),
     ("hierarchical_structure", 0.2), ("reciprocal_exchange", 0.7)]),
   ("embedded_obligation",
    [("voluntary_association", 0.3), ("embedded_obligation", 0.9),
     ("hierarchical_structure", 0.7), ("reciprocal_exchange", 0.6)])]

/-- JS `assessRelationshipCompatibility`. -/
def assessRelationshipCompatibility (model1 model2 : Option String) : ℚ :=
  jsOrOpt (matrixLookup relationshipMatrix model1 model2) 0.5

/-- JS `calculateBeliefCompatibility(beliefs1, beliefs2)`: 0.5 when either record
is missing, 0.3 when they share no keys, else the mean of `1 - |diff|` over the
common keys. -/
def calculateBeliefCompatibility (beliefs1 beliefs2 : Option (List (String × ℚ))) : ℚ :=
  match beliefs1, beliefs2 with
  | none, _ => 0.5
  | _, none => 0.5
  | some b1, some b2 =>
    let commonBeliefs := (b1.map Prod.fst).filter fun key => (b2.map Prod.fst).contains key
    if commonBeliefs = [] then 0.3
    else
      let totalCompatibility := (commonBeliefs.map fun belief =>
        1 - |(alookup b1 belief).getD 0 - (alookup b2 belief).getD 0|).sum
      totalCompatibility / commonBeliefs.length

/-- JS `calculateRuleCompatibility(rules1, rules2)`: mean of the three style
compatibilities, 0.5 when either record is missing. -/
def calculateRuleCompatibility (rules1 rules2 : Option (List (String × String))) : ℚ :=
  match rules1, rules2 with
  | none, _ => 0.5
  | _, none => 0.5
  | some r1, some r2 =>
    (assessDecisionCompatibility (alookup r1 "decision_making") (alookup r2 "decision_making") +
     assessConflictCompatibility (alookup r1 "conflict_resolution") (alookup r2 "conflict_resolution") +
     assessGoalCompatibility (alookup r1 "goal_setting") (alookup r2 "goal_setting")) / 3

/-- JS `calculateOntologyCompatibility(ontology1, ontology2)`. -/
def calculateOntologyCompatibility (ontology1 ontology2 : Option (List (String × String))) : ℚ :=
  match ontology1, ontology2 with
  | none, _ => 0.5
  | _, none => 0.5
  | some o1, some o2 =>
    (assessAgencyCompatibility (alookup o1 "agency_conception") (alookup o2 "agency_conception") +
     assessTimeCompatibility (alookup o1 "time_orientation") (alookup o2 "time_orientation") +
     assessRelationshipCompatibility (alookup o1 "relationship_model") (alookup o2 "relationship_model")) / 3

/-- JS `calculateIdentityKernelOverlap(kernel1, kernel2)`: Jaccard similarity,
0 when either kernel is missing or empty. -/
def calculateIdentityKernelOverlap (kernel1 kernel2 : Option (List String)) : ℚ :=
  match kernel1, kernel2 with
  | none, _ => 0
  | _, none => 0
  | some k1, some k2 =>
    if k1 = [] ∨ k2 = [] then 0
    else
      let set1 := k1.toFinset
      let set2 := k2.toFinset
      ((set1 ∩ set2).card : ℚ) / ((set1 ∪ set2).card : ℚ)

/-- JS `calculateAuthenticityCompatibility(auth1, auth2)`. -/
def calculateAuthenticityCompatibility (auth1 auth2 : Option AuthRecord) : ℚ :=
  match auth1, auth2 with
  | none, _ => 0.5
  | _, none => 0.5
  | some a1, some a2 =>
    let kernelOverlap := calculateIdentityKernelOverlap a1.identity_kernel a2.identity_kernel
    let alignmentCompatibility := 1 - |a1.value_alignment - a2.value_alignment|
    let consistencyCompatibility := 1 - |a1.self_consistency - a2.self_consistency|
    (kernelOverlap + alignmentCompatibility + consistencyCompatibility) / 3

/-- JS `calculatePRFCompatibility(broa1, broa2)`: mean of the four sub-compatibilities. -/
def calculatePRFCompatibility (broa1 broa2 : BroaData) : ℚ :=
  (calculateBeliefCompatibility broa1.beliefs broa2.beliefs +
   calculateRuleCompatibility broa1.rules broa2.rules +
   calculateOntologyCompatibility broa1.ontology broa2.ontology +
   calculateAuthenticityCompatibility broa1.authenticity broa2.authenticity) / 4

/-- JS `calculateCapabilityOverlap(capabilities1, capabilities2)`: 0.3 when either
set is missing or empty, else `0.4 * overlap + 0.6 * min(1, 2 * complementarity)`. -/
def calculateCapabilityOverlap (capabilities1 capabilities2 : Option (List String)) : ℚ :=
  match capabilities1, capabilities2 with
  | none, _ => 0.3
  | _, none => 0.3
  | some c1, some c2 =>
    if c1 = [] ∨ c2 = [] then 0.3
    else
      let set1 := c1.toFinset
      let set2 := c2.toFinset
      let intersection := set1 ∩ set2
      let union := set1 ∪ set2
      let overlapRatio : ℚ := (intersection.card : ℚ) / (union.card : ℚ)
      let complementarityRatio : ℚ := ((union.card : ℚ) - (intersection.card : ℚ)) / (union.card : ℚ)
      0.4 * overlapRatio + 0.6 * min 1 (complementarityRatio * 2)

/-- The `culturalCompatibilityMatrix` of `calculateCulturalCoordination`. -/
def culturalCompatibilityMatrix : List (String × List (String × ℚ)) :=
  [("individualistic",
    [("collectivistic", 0.6), ("indigenous", 0.5), ("traditional", 0.4)]),
   ("collectivistic",
    [("individualistic", 0.6), ("indigenous", 0.7), ("traditional", 0.8)]),
   ("indigenous",
    [("individualistic", 0.5), ("collectivistic", 0.7), ("traditional", 0.6)]),
   ("traditional",
    [("individualistic", 0.4), ("collectivistic", 0.8), ("indigenous", 0.6)])]

/-- JS `calculateCulturalCoordination(culture1, culture2)`: 0.5 when either tag is
missing, 0.8 for identical tags, else a table lookup with fallback 0.5. -/
def calculateCulturalCoordination (culture1 culture2 : Option String) : ℚ :=
  match culture1, culture2 with
  | none, _ => 0.5
  | _, none => 0.5
  | some c1, some c2 =>
    if c1 = c2 then 0.8
    else jsOrOpt (matrixLookup culturalCompatibilityMatrix (some c1) (some c2)) 0.5

/-- The record returned by `generateCoordinationRecommendation`. -/
structure Recommendation where
  level : String
  description : String
  action : String
  confidence : String
deriving DecidableEq

/-- JS `generateCoordinationRecommendation(coordinationPotential)`: five fixed
bands on the (unclamped) composite. -/
noncomputable def generateCoordinationRecommendation (coordinationPotential : ℝ) :
    Recommendation :=
  if 0.8 ≤ coordinationPotential then
    ⟨"excellent", "Excellent coordination potential",
     "Proceed with standard coordination protocols", "high"⟩
  else if 0.7 ≤ coordinationPotential then
    ⟨"good", "Good coordination potential",
     "Focus on capability-based coordination protocols", "high"⟩
  else if 0.5 ≤ coordinationPotential then
    ⟨"moderate", "Moderate coordination potential",
     "Implement cultural adaptation strategies and ATCF enhancement", "medium"⟩
  else if 0.3 ≤ coordinationPotential then
    ⟨"low", "Low coordination potential",
     "Intensive capability development and cultural bridge-building recommended", "medium"⟩
  else
    ⟨"very_low", "Very low coordination potential",
     "Consider alternative partnerships or extensive preparatory work", "low"⟩

/-- One intervention strategy record. -/
structure Strategy where
  type : String
  priority : String
  strategy : String
  timeline : String
  expected_improvement : ℚ
deriving DecidableEq

/-- The strategy pushed when `prfCompatibility < 0.6`. -/
def prfAlignmentStrategy : Strategy :=
  ⟨"prf_alignment", "high",
   "Implement belief-bridging exercises and rule harmonization protocols",
   "2-4 weeks", 0.2⟩

/-- The strategy pushed when `capabilityOverlap < 0.5`. -/
def capabilityDevelopmentStrategy : Strategy :=
  ⟨"capability_development", "medium",
   "Focus on complementary capability training and cross-skilling",
   "4-8 weeks", 0.25⟩

/-- The strategy pushed when `culturalCoordination < 0.6`. -/
def culturalBridgingStrategy : Strategy :=
  ⟨"cultural_bridging", "high",
   "Implement cultural competency training and adaptation protocols",
   "3-6 weeks", 0.3⟩

/-- The strategy pushed when `coordinationPotential < 0.5`. -/
def comprehensiveCoordinationStrategy : Strategy :=
  ⟨"comprehensive_coordination", "critical",
   "Multi-modal coordination enhancement program including ATCF therapy",
   "8-12 weeks", 0.4⟩

/-- The `priorityOrder` table of the sort comparator. -/
def priorityOrder (p : String) : ℕ :=
  if p = "critical" then 4
  else if p = "high" then 3
  else if p = "medium" then 2
  else if p = "low" then 1
  else 0

/-- The strategy list in the order the `push` calls build it, before sorting. -/
noncomputable def builtStrategies (coordinationPotential : ℝ)
    (prfCompatibility capabilityOverlap culturalCoordination : ℚ) : List Strategy :=
  (if prfCompatibility < 0.6 then [prfAlignmentStrategy] else []) ++
  (if capabilityOverlap < 0.5 then [capabilityDevelopmentStrategy] else []) ++
  (if culturalCoordination < 0.6 then [culturalBridgingStrategy] else []) ++
  (if coordinationPotential < 0.5 then [comprehensiveCoordinationStrategy] else [])

/-- JS `identifyInterventionStrategies(...)`: the built list sorted descending by
priority rank.  `Array.prototype.sort` is stable (ES2019) with the comparator
`priorityOrder[b.priority] - priorityOrder[a.priority]`; a stable descending
sort is insertion sort with the relation `rank b ≤ rank a`. -/
noncomputable def identifyInterventionStrategies (coordinationPotential : ℝ)
    (prfCompatibility capabilityOverlap culturalCoordination : ℚ) : List Strategy :=
  (builtStrategies coordinationPotential prfCompatibility capabilityOverlap
    culturalCoordination).insertionSort
    fun a b => priorityOrder b.priority ≤ priorityOrder a.priority

/-- The record returned by `assessCrossAgentCoordination`. -/
structure CoordinationResult where
  coordination_potential : ℝ
  agent1_atcf : CulturallyAdaptedResult
  agent2_atcf : CulturallyAdaptedResult
  prf_compatibility : ℚ
  capability_overlap : ℚ
  cultural_coordination : ℚ
  recommendation : Recommendation
  intervention_strategies : List Strategy

/-- JS `assessCrossAgentCoordination(agent1Data, agent2Data)`: runs the culturally
adapted ATCF on both agents with the shared mutable calculator of the
CoordinationAssessment instance, then combines the compatibility scores.  The
default `timeWindow = Date.now()` wall-clock read is passed as the explicit
`now` parameter.  The second component is the calculator state after the call. -/
noncomputable def assessCrossAgentCoordination (table : String → Option Weights)
    (c : Calculator) (agent1Data agent2Data : AgentData) (now : ℚ) :
    Option CoordinationResult × Calculator :=
  match calculateCulturallyAdaptedATCF table c agent1Data now with
  | (none, c1) => (none, c1)
  | (some atcf1, c1) =>
    match calculateCulturallyAdaptedATCF table c1 agent2Data now with
    | (none, c2) => (none, c2)
    | (some atcf2, c2) =>
      let prfCompatibility := calculatePRFCompatibility agent1Data.broa_data agent2Data.broa_data
      let capabilityOverlap := calculateCapabilityOverlap
        (some (agent1Data.capabilities.getD []))
        (some (agent2Data.capabilities.getD []))
      let culturalCoordination := calculateCulturalCoordination
        agent1Data.cultural_background agent2Data.cultural_background
      let coordinationPotential : ℝ :=
        0.3 * min atcf1.base.total_score atcf2.base.total_score +
        0.25 * (prfCompatibility : ℝ) +
        0.25 * (capabilityOverlap : ℝ) +
        0.2 * (culturalCoordination : ℝ)
      (some { coordination_potential := clamp01 coordinationPotential
              agent1_atcf := atcf1
              agent2_atcf := atcf2
              prf_compatibility := prfCompatibility
              capability_overlap := capabilityOverlap
              cultural_coordination := culturalCoordination
              recommendation := generateCoordinationRecommendation coordinationPotential
              intervention_strategies := identifyInterventionStrategies coordinationPotential
                prfCompatibility capabilityOverlap culturalCoordination },
       c2)

/-! ### Specification-side definitions

These follow the wording of the specification, for comparison with the
definitions above, which were translated from the source. -/

/-- The temporal weight of the spec `exp(-Δdays/30)` with decay constant 30 days
(timestamps in milliseconds, `Δdays = Δms / (1000*60*60*24)`). -/
noncomputable def specTemporalWeight (currentTime timestamp : ℚ) : ℝ :=
  Real.exp (-((((currentTime - timestamp) / (1000 * 60 * 60 * 24) : ℚ) : ℝ) / 30))

/-- The historical-continuity sub-score exactly as the spec words it: the
`exp(-Δdays/30)`-weighted average over all snapshots of the Jaccard similarity
between the CURRENT identity-kernel of the agent and each snapshot kernel, 0 for
an empty or absent history. -/
noncomputable def specHistoricalContinuityCurrent (currentKernel : List String)
    (identityHistory : Option (List HistoryPoint)) (currentTime : ℚ) : ℝ :=
  match identityHistory with
  | none => 0
  | some [] => 0
  | some (p :: rest) =>
    ((p :: rest).map fun q => specTemporalWeight currentTime q.timestamp *
      (calculateIdentitySimilarity currentKernel q.identity_kernel : ℝ)).sum /
    ((p :: rest).map fun q => specTemporalWeight currentTime q.timestamp).sum

/-- The historical-continuity sub-score as a weighted average, but against the
kernel of the FIRST history snapshot (what the code actually compares with). -/
noncomputable def specHistoricalContinuityFirst
    (identityHistory : Option (List HistoryPoint)) (currentTime : ℚ) : ℝ :=
  match identityHistory with
  | none => 0
  | some [] => 0
  | some (p :: rest) =>
    ((p :: rest).map fun q => specTemporalWeight currentTime q.timestamp *
      (calculateIdentitySimilarity p.identity_kernel q.identity_kernel : ℝ)).sum /
    ((p :: rest).map fun q => specTemporalWeight currentTime q.timestamp).sum

/-- The Jaccard overlap of the spec of two capability sets. -/
def jaccardOverlap (c1 c2 : List String) : ℚ :=
  ((c1.toFinset ∩ c2.toFinset).card : ℚ) / ((c1.toFinset ∪ c2.toFinset).card : ℚ)

/-- The complementarity of the spec: the fraction of the union not in the intersection. -/
def complementarity (c1 c2 : List String) : ℚ :=
  ((c1.toFinset ∪ c2.toFinset).card - (c1.toFinset ∩ c2.toFinset).card : ℚ) /
    ((c1.toFinset ∪ c2.toFinset).card : ℚ)

/-- Validity of a broa_data record per the data model: its numeric attributes
are scores in [0,1]. -/
def ValidBroa (b : BroaData) : Prop :=
  (∀ l, b.beliefs = some l → ∀ p ∈ l, 0 ≤ p.2 ∧ p.2 ≤ 1) ∧
  (∀ a, b.authenticity = some a →
    0 ≤ a.value_alignment ∧ a.value_alignment ≤ 1 ∧
    0 ≤ a.self_consistency ∧ a.self_consistency ≤ 1)

/-! ### Concrete data used by witnesses and counterexamples -/

/-- The default weights `{alpha: 0.25, beta: 0.25, gamma: 0.25, delta: 0.25}`. -/
def wWeights : Weights := ⟨1/4, 1/4, 1/4, 1/4⟩

/-- The default calculator. -/
def wCalc : Calculator := ⟨wWeights, 30⟩

/-- A modifier table with no known cultures. -/
def wTable : String → Option Weights := fun _ => none

/-- A small uev record: four components, each with two values of 0.5. -/
def wUev : UevData := ⟨[1/2, 1/2], [1/2, 1/2], [1/2, 1/2], [1/2, 1/2]⟩

/-- A small broa record: one belief, no rules/ontology, a full authenticity. -/
def wBroa : BroaData := ⟨some [("x", 1/2)], none, none, some ⟨none, 1/2, 1/2⟩⟩

/-- Projections with no goals and no timeline. -/
def wProj : FutureProjections := ⟨none, none, 0⟩

/-- Self-modification data with no history. -/
def wMod : SelfModData := ⟨none, 1/2⟩

/-- A small but fully scoreable agent. -/
def wAgent : AgentData := ⟨none, none, none, wUev, wBroa, wProj, wMod, none⟩

/-- The interpretation band hit by the wAgent total score of 0.305. -/
def wInterpretation : Interpretation :=
  ⟨"low", "Low temporal coherence",
   "Comprehensive intervention recommended - consider temporal coherence therapy"⟩

/-- The ATCF result of wAgent under the default calculator at time 0. -/
noncomputable def wATCFRes : ATCFResult :=
  { total_score := 61/200, HC := 0, PI := 21/50, PC := 2/5, MCC := 2/5,
    weights := wWeights, assessment_timestamp := 0, interpretation := wInterpretation }

/-- The culturally adapted result of wAgent (no culture, so weights unchanged). -/
noncomputable def wCultRes : CulturallyAdaptedResult :=
  ⟨wATCFRes, wWeights, wWeights, none⟩

/-- The recommendation band hit by the wAgent/wAgent coordination potential. -/
def wRec : Recommendation :=
  ⟨"low", "Low coordination potential",
   "Intensive capability development and cultural bridge-building recommended", "medium"⟩

/-- The coordination result of assessing wAgent against itself at time 0. -/
noncomputable def wCoordRes : CoordinationResult :=
  { coordination_potential := 2599/6000
    agent1_atcf := wCultRes
    agent2_atcf := wCultRes
    prf_compatibility := 2/3
    capability_overlap := 3/10
    cultural_coordination := 1/2
    recommendation := wRec
    intervention_strategies :=
      [comprehensiveCoordinationStrategy, culturalBridgingStrategy,
       capabilityDevelopmentStrategy] }

/-- History with a single snapshot at time 0 whose kernel is ["b"]. -/
def cHist2 : List HistoryPoint := [⟨0, ["b"]⟩]

/-- An agent whose beliefs object is present but empty. -/
def cAgentEmptyBeliefs : AgentData :=
  { wAgent with broa_data := { wBroa with beliefs := some [] } }

/-- Weights accepted by the 0.001 tolerance but with sum 1.0005. -/
def cBadWeights : Weights := ⟨0.2505, 0.25, 0.25, 0.25⟩

/-- A one-culture modifier table with positive modifiers, for the C5 witness. -/
def cTable5 : String → Option Weights :=
  fun s => if s = "collectivistic" then some ⟨1/2, 2, 1, 3/2⟩ else none

/-! ### Helper lemmas -/

theorem clamp01_nonneg (x : ℝ) : 0 ≤ clamp01 x := le_max_left 0 _

theorem clamp01_le_one (x : ℝ) : clamp01 x ≤ 1 :=
  max_le (by norm_num) (min_le_left 1 x)

theorem clamp01_lt_of_lt {x y : ℝ} (hy : y ≤ 1) (h : clamp01 x < y) : x < y := by
  rcases le_or_lt 1 x with hx | hx
  · exact absurd h (not_lt.mpr (le_trans hy (le_trans (le_min le_rfl hx) (le_max_right 0 _))))
  · have := lt_of_le_of_lt (le_max_right 0 (min 1 x)) h
    rwa [min_eq_right hx.le] at this

theorem alookup_mem {β : Type} {l : List (String × β)} {k : String} {v : β}
    (h : alookup l k = some v) : (k, v) ∈ l := by
  induction l with
  | nil => simp [alookup] at h
  | cons hd tl ih =>
    rw [alookup] at h
    split at h
    · rename_i heq
      cases h
      simp [← heq]
    · exact List.mem_cons_of_mem _ (ih h)

theorem jsOrOpt_of_bounds {v : Option ℚ} {d : ℚ} (hd : 0 ≤ d ∧ d ≤ 1)
    (hv : ∀ x, v = some x → 0 ≤ x ∧ x ≤ 1) : 0 ≤ jsOrOpt v d ∧ jsOrOpt v d ≤ 1 := by
  cases v with
  | none => simpa [jsOrOpt] using hd
  | some x =>
    have := hv x rfl
    by_cases hx : x = 0 <;> simp [jsOrOpt, hx] <;> [exact hd; exact this]

theorem matrixVal_bounds (m : List (String × List (String × ℚ)))
    (hm : ∀ row ∈ m, ∀ e ∈ row.2, 0 ≤ e.2 ∧ e.2 ≤ 1) (s1 s2 : Option String) :
    0 ≤ jsOrOpt (matrixLookup m s1 s2) (1/2) ∧ jsOrOpt (matrixLookup m s1 s2) (1/2) ≤ 1 := by
  refine jsOrOpt_of_bounds (by norm_num) ?_
  intro x hx
  unfold matrixLookup at hx
  rcases s1 with _ | a <;> rcases s2 with _ | b <;> simp at hx
  rcases Option.bind_eq_some.mp hx with ⟨row, hrow, hval⟩
  exact hm (a, row) (alookup_mem hrow) (b, x) (alookup_mem hval)

theorem list_mean_bounds {l : List ℚ} (hl : l ≠ []) (h : ∀ x ∈ l, 0 ≤ x ∧ x ≤ 1) :
    0 ≤ l.sum / l.length ∧ l.sum / l.length ≤ 1 := by
  have hlen : (0 : ℚ) < l.length := by
    have : l.length ≠ 0 := fun hc => hl (List.length_eq_zero.mp hc)
    exact_mod_cast Nat.pos_of_ne_zero this
  constructor
  · exact div_nonneg (List.sum_nonneg fun x hx => (h x hx).1) hlen.le
  · rw [div_le_one hlen]
    calc l.sum ≤ l.length • (1 : ℚ) := List.sum_le_card_nsmul l 1 fun x hx => (h x hx).2
    _ = l.length := by simp

theorem foldl_pair_sum (f g : HistoryPoint → ℝ) :
    ∀ (l : List HistoryPoint) (a b : ℝ),
      l.foldl (fun acc p => (acc.1 + f p, acc.2 + g p)) (a, b) =
        (a + (l.map f).sum, b + (l.map g).sum) := by
  intro l
  induction l with
  | nil => intro a b; simp
  | cons hd tl ih =>
    intro a b
    simp only [List.foldl_cons, List.map_cons, List.sum_cons, ih]
    rw [Prod.mk.injEq]
    constructor <;> ring

theorem assessDecisionCompatibility_bounds (s1 s2 : Option String) :
    0 ≤ assessDecisionCompatibility s1 s2 ∧ assessDecisionCompatibility s1 s2 ≤ 1 := by
  have h := matrixVal_bounds decisionMatrix
    (by intro row hrow e he; simp only [decisionMatrix] at hrow; fin_cases hrow <;> fin_cases he <;> norm_num) s1 s2
  simpa [assessDecisionCompatibility, show (0.5 : ℚ) = 1/2 by norm_num] using h

theorem assessConflictCompatibility_bounds (s1 s2 : Option String) :
    0 ≤ assessConflictCompatibility s1 s2 ∧ assessConflictCompatibility s1 s2 ≤ 1 := by
  have h := matrixVal_bounds conflictMatrix
    (by intro row hrow e he; simp only [conflictMatrix] at hrow; fin_cases hrow <;> fin_cases he <;> norm_num) s1 s2
  simpa [assessConflictCompatibility, show (0.5 : ℚ) = 1/2 by norm_num] using h

theorem assessGoalCompatibility_bounds (s1 s2 : Option String) :
    0 ≤ assessGoalCompatibility s1 s2 ∧ assessGoalCompatibility s1 s2 ≤ 1 := by
  have h := matrixVal_bounds goalMatrix
    (by intro row hrow e he; simp only [goalMatrix] at hrow; fin_cases hrow <;> fin_cases he <;> norm_num) s1 s2
  simpa [assessGoalCompatibility, show (0.5 : ℚ) = 1/2 by norm_num] using h

theorem assessAgencyCompatibility_bounds (s1 s2 : Option String) :
    0 ≤ assessAgencyCompatibility s1 s2 ∧ assessAgencyCompatibility s1 s2 ≤ 1 := by
  have h := matrixVal_bounds agencyMatrix
    (by intro row hrow e he; simp only [agencyMatrix] at hrow; fin_cases hrow <;> fin_cases he <;> norm_num) s1 s2
  simpa [assessAgencyCompatibility, show (0.5 : ℚ) = 1/2 by norm_num] using h

theorem assessTimeCompatibility_bounds (s1 s2 : Option String) :
    0 ≤ assessTimeCompatibility s1 s2 ∧ assessTimeCompatibility s1 s2 ≤ 1 := by
  have h := matrixVal_bounds timeMatrix
    (by intro row hrow e he; simp only [timeMatrix] at hrow; fin_cases hrow <;> fin_cases he <;> norm_num) s1 s2
  simpa [assessTimeCompatibility, show (0.5 : ℚ) = 1/2 by norm_num] using h

theorem assessRelationshipCompatibility_bounds (s1 s2 : Option String) :
    0 ≤ assessRelationshipCompatibility s1 s2 ∧ assessRelationshipCompatibility s1 s2 ≤ 1 := by
  have h := matrixVal_bounds relationshipMatrix
    (by intro row hrow e he; simp only [relationshipMatrix] at hrow; fin_cases hrow <;> fin_cases he <;> norm_num) s1 s2
  simpa [assessRelationshipCompatibility, show (0.5 : ℚ) = 1/2 by norm_num] using h

theorem jaccard_div_bounds {l1 l2 : List String} (h1 : l1 ≠ []) :
    0 ≤ ((l1.toFinset ∩ l2.toFinset).card : ℚ) / ((l1.toFinset ∪ l2.toFinset).card : ℚ) ∧
    ((l1.toFinset ∩ l2.toFinset).card : ℚ) / ((l1.toFinset ∪ l2.toFinset).card : ℚ) ≤ 1 := by
  have hsub : l1.toFinset ∩ l2.toFinset ⊆ l1.toFinset ∪ l2.toFinset :=
    Finset.inter_subset_left.trans Finset.subset_union_left
  have hun : (0 : ℚ) < ((l1.toFinset ∪ l2.toFinset).card : ℚ) := by
    have : l1.toFinset.Nonempty := (List.toFinset_nonempty_iff l1).mpr h1
    have : (l1.toFinset ∪ l2.toFinset).Nonempty := this.mono Finset.subset_union_left
    exact_mod_cast Finset.card_pos.mpr this
  constructor
  · exact div_nonneg (by positivity) hun.le
  · rw [div_le_one hun]
    exact_mod_cast Finset.card_le_card hsub

theorem calculateIdentityKernelOverlap_bounds (k1 k2 : Option (List String)) :
    0 ≤ calculateIdentityKernelOverlap k1 k2 ∧ calculateIdentityKernelOverlap k1 k2 ≤ 1 := by
  rcases k1 with _ | l1
  · constructor <;> simp [calculateIdentityKernelOverlap]
  rcases k2 with _ | l2
  · constructor <;> simp [calculateIdentityKernelOverlap]
  by_cases he : l1 = [] ∨ l2 = []
  · rw [show calculateIdentityKernelOverlap (some l1) (some l2) = 0 by
      simp only [calculateIdentityKernelOverlap]; exact if_pos he]
    norm_num
  · push_neg at he
    rw [show calculateIdentityKernelOverlap (some l1) (some l2) =
        ((l1.toFinset ∩ l2.toFinset).card : ℚ) / ((l1.toFinset ∪ l2.toFinset).card : ℚ) by
      simp only [calculateIdentityKernelOverlap]
      exact if_neg (by push_neg; exact he)]
    exact jaccard_div_bounds he.1

theorem calculateBeliefCompatibility_bounds {b1 b2 : Option (List (String × ℚ))}
    (h1 : ∀ l, b1 = some l → ∀ p ∈ l, 0 ≤ p.2 ∧ p.2 ≤ 1)
    (h2 : ∀ l, b2 = some l → ∀ p ∈ l, 0 ≤ p.2 ∧ p.2 ≤ 1) :
    0 ≤ calculateBeliefCompatibility b1 b2 ∧ calculateBeliefCompatibility b1 b2 ≤ 1 := by
  rcases b1 with _ | l1
  · rw [show calculateBeliefCompatibility none b2 = 0.5 by
      simp [calculateBeliefCompatibility]]
    norm_num
  rcases b2 with _ | l2
  · rw [show calculateBeliefCompatibility (some l1) none = 0.5 by
      simp [calculateBeliefCompatibility]]
    norm_num
  have hred : calculateBeliefCompatibility (some l1) (some l2) =
      if ((l1.map Prod.fst).filter fun key => (l2.map Prod.fst).contains key) = [] then 0.3
      else (((l1.map Prod.fst).filter fun key => (l2.map Prod.fst).contains key).map fun belief =>
          1 - |(alookup l1 belief).getD 0 - (alookup l2 belief).getD 0|).sum /
        ((l1.map Prod.fst).filter fun key => (l2.map Prod.fst).contains key).length := rfl
  rw [hred]
  by_cases hc : ((l1.map Prod.fst).filter fun key => (l2.map Prod.fst).contains key) = []
  · rw [if_pos hc]; norm_num
  · rw [if_neg hc]
    have hval : ∀ (l : List (String × ℚ))
        (hl : ∀ p ∈ l, 0 ≤ p.2 ∧ p.2 ≤ 1) (k : String),
        0 ≤ (alookup l k).getD 0 ∧ (alookup l k).getD 0 ≤ 1 := by
      intro l hl k
      cases hv : alookup l k with
      | none => norm_num
      | some v => simpa using hl (k, v) (alookup_mem hv)
    have hmem : ∀ x ∈ ((l1.map Prod.fst).filter fun key =>
        (l2.map Prod.fst).contains key).map fun belief =>
        1 - |(alookup l1 belief).getD 0 - (alookup l2 belief).getD 0|, 0 ≤ x ∧ x ≤ 1 := by
      intro x hx
      rcases List.mem_map.mp hx with ⟨k, _, rfl⟩
      have hv1 := hval l1 (h1 l1 rfl) k
      have hv2 := hval l2 (h2 l2 rfl) k
      constructor
      · have : |(alookup l1 k).getD 0 - (alookup l2 k).getD 0| ≤ 1 := by
          rw [abs_sub_le_iff]; constructor <;> linarith [hv1.1, hv1.2, hv2.1, hv2.2]
        linarith
      · have : 0 ≤ |(alookup l1 k).getD 0 - (alookup l2 k).getD 0| := abs_nonneg _
        linarith
    have hnil : (((l1.map Prod.fst).filter fun key =>
        (l2.map Prod.fst).contains key).map fun belief =>
        1 - |(alookup l1 belief).getD 0 - (alookup l2 belief).getD 0|) ≠ [] := by
      simpa using hc
    have := list_mean_bounds hnil hmem
    simpa [List.length_map] using this

theorem calculateRuleCompatibility_bounds (r1 r2 : Option (List (String × String))) :
    0 ≤ calculateRuleCompatibility r1 r2 ∧ calculateRuleCompatibility r1 r2 ≤ 1 := by
  rcases r1 with _ | l1 <;> rcases r2 with _ | l2 <;>
    simp only [calculateRuleCompatibility] <;> try norm_num
  have hd := assessDecisionCompatibility_bounds (alookup l1 "decision_making") (alookup l2 "decision_making")
  have hc := assessConflictCompatibility_bounds (alookup l1 "conflict_resolution") (alookup l2 "conflict_resolution")
  have hg := assessGoalCompatibility_bounds (alookup l1 "goal_setting") (alookup l2 "goal_setting")
  constructor <;> linarith [hd.1, hd.2, hc.1, hc.2, hg.1, hg.2]

theorem calculateOntologyCompatibility_bounds (o1 o2 : Option (List (String × String))) :
    0 ≤ calculateOntologyCompatibility o1 o2 ∧ calculateOntologyCompatibility o1 o2 ≤ 1 := by
  rcases o1 with _ | l1 <;> rcases o2 with _ | l2 <;>
    simp only [calculateOntologyCompatibility] <;> try norm_num
  have ha := assessAgencyCompatibility_bounds (alookup l1 "agency_conception") (alookup l2 "agency_conception")
  have ht := assessTimeCompatibility_bounds (alookup l1 "time_orientation") (alookup l2 "time_orientation")
  have hr := assessRelationshipCompatibility_bounds (alookup l1 "relationship_model") (alookup l2 "relationship_model")
  constructor <;> linarith [ha.1, ha.2, ht.1, ht.2, hr.1, hr.2]

theorem calculateAuthenticityCompatibility_bounds {a1 a2 : Option AuthRecord}
    (h1 : ∀ a, a1 = some a → 0 ≤ a.value_alignment ∧ a.value_alignment ≤ 1 ∧
      0 ≤ a.self_consistency ∧ a.self_consistency ≤ 1)
    (h2 : ∀ a, a2 = some a → 0 ≤ a.value_alignment ∧ a.value_alignment ≤ 1 ∧
      0 ≤ a.self_consistency ∧ a.self_consistency ≤ 1) :
    0 ≤ calculateAuthenticityCompatibility a1 a2 ∧
    calculateAuthenticityCompatibility a1 a2 ≤ 1 := by
  rcases a1 with _ | x1 <;> rcases a2 with _ | x2 <;>
    simp only [calculateAuthenticityCompatibility] <;> try norm_num
  obtain ⟨hva1, hva1', hsc1, hsc1'⟩ := h1 x1 rfl
  obtain ⟨hva2, hva2', hsc2, hsc2'⟩ := h2 x2 rfl
  have hk := calculateIdentityKernelOverlap_bounds x1.identity_kernel x2.identity_kernel
  have hva : |x1.value_alignment - x2.value_alignment| ≤ 1 := by
    rw [abs_sub_le_iff]; constructor <;> linarith
  have hsc : |x1.self_consistency - x2.self_consistency| ≤ 1 := by
    rw [abs_sub_le_iff]; constructor <;> linarith
  have hva0 : 0 ≤ |x1.value_alignment - x2.value_alignment| := abs_nonneg _
  have hsc0 : 0 ≤ |x1.self_consistency - x2.self_consistency| := abs_nonneg _
  constructor <;> linarith [hk.1, hk.2]

theorem calculatePRFCompatibility_bounds {broa1 broa2 : BroaData}
    (h1 : ValidBroa broa1) (h2 : ValidBroa broa2) :
    0 ≤ calculatePRFCompatibility broa1 broa2 ∧ calculatePRFCompatibility broa1 broa2 ≤ 1 := by
  have hb := calculateBeliefCompatibility_bounds h1.1 h2.1
  have hr := calculateRuleCompatibility_bounds broa1.rules broa2.rules
  have ho := calculateOntologyCompatibility_bounds broa1.ontology broa2.ontology
  have ha := calculateAuthenticityCompatibility_bounds h1.2 h2.2
  unfold calculatePRFCompatibility
  constructor <;> linarith [hb.1, hb.2, hr.1, hr.2, ho.1, ho.2, ha.1, ha.2]

theorem calculateCapabilityOverlap_bounds (c1 c2 : Option (List String)) :
    0 ≤ calculateCapabilityOverlap c1 c2 ∧ calculateCapabilityOverlap c1 c2 ≤ 1 := by
  rcases c1 with _ | l1
  · rw [show calculateCapabilityOverlap none c2 = 0.3 by simp [calculateCapabilityOverlap]]
    norm_num
  rcases c2 with _ | l2
  · rw [show calculateCapabilityOverlap (some l1) none = 0.3 by
      simp [calculateCapabilityOverlap]]
    norm_num
  by_cases he : l1 = [] ∨ l2 = []
  · rw [show calculateCapabilityOverlap (some l1) (some l2) = 0.3 by
      simp only [calculateCapabilityOverlap]; exact if_pos he]
    norm_num
  · push_neg at he
    rw [show calculateCapabilityOverlap (some l1) (some l2) =
        0.4 * (((l1.toFinset ∩ l2.toFinset).card : ℚ) / ((l1.toFinset ∪ l2.toFinset).card : ℚ)) +
        0.6 * min 1 ((((l1.toFinset ∪ l2.toFinset).card : ℚ) -
          ((l1.toFinset ∩ l2.toFinset).card : ℚ)) / ((l1.toFinset ∪ l2.toFinset).card : ℚ) * 2) by
      simp only [calculateCapabilityOverlap]
      exact if_neg (by push_neg; exact he)]
    have hj := @jaccard_div_bounds l1 l2 he.1
    have hsub : l1.toFinset ∩ l2.toFinset ⊆ l1.toFinset ∪ l2.toFinset :=
      Finset.inter_subset_left.trans Finset.subset_union_left
    have hun : (0 : ℚ) < ((l1.toFinset ∪ l2.toFinset).card : ℚ) := by
      have : l1.toFinset.Nonempty := (List.toFinset_nonempty_iff l1).mpr he.1
      have : (l1.toFinset ∪ l2.toFinset).Nonempty := this.mono Finset.subset_union_left
      exact_mod_cast Finset.card_pos.mpr this
    have hcle : ((l1.toFinset ∩ l2.toFinset).card : ℚ) ≤ ((l1.toFinset ∪ l2.toFinset).card : ℚ) := by
      exact_mod_cast Finset.card_le_card hsub
    have hcomp0 : 0 ≤ ((l1.toFinset ∪ l2.toFinset).card -
        (l1.toFinset ∩ l2.toFinset).card : ℚ) / ((l1.toFinset ∪ l2.toFinset).card : ℚ) :=
      div_nonneg (by linarith) hun.le
    have hmin1 : min 1 (((l1.toFinset ∪ l2.toFinset).card -
        (l1.toFinset ∩ l2.toFinset).card : ℚ) / ((l1.toFinset ∪ l2.toFinset).card : ℚ) * 2) ≤ 1 :=
      min_le_left _ _
    have hmin0 : 0 ≤ min 1 (((l1.toFinset ∪ l2.toFinset).card -
        (l1.toFinset ∩ l2.toFinset).card : ℚ) / ((l1.toFinset ∪ l2.toFinset).card : ℚ) * 2) :=
      le_min (by norm_num) (by linarith)
    constructor <;> linarith [hj.1, hj.2]

theorem culturalMatrix_entry_bounds :
    ∀ row ∈ culturalCompatibilityMatrix, ∀ e ∈ row.2, 0 ≤ e.2 ∧ e.2 ≤ 1 := by
  intro row hrow e he
  simp only [culturalCompatibilityMatrix] at hrow
  fin_cases hrow <;> fin_cases he <;> norm_num

theorem calculateCulturalCoordination_bounds (c1 c2 : Option String) :
    0 ≤ calculateCulturalCoordination c1 c2 ∧ calculateCulturalCoordination c1 c2 ≤ 1 := by
  rcases c1 with _ | s1
  · constructor <;> simp [calculateCulturalCoordination] <;> norm_num
  rcases c2 with _ | s2
  · rw [show calculateCulturalCoordination (some s1) none = 0.5 by
      simp [calculateCulturalCoordination]]
    norm_num
  by_cases he : s1 = s2
  · rw [show calculateCulturalCoordination (some s1) (some s2) = 0.8 by
      simp only [calculateCulturalCoordination]; exact if_pos he]
    norm_num
  · rw [show calculateCulturalCoordination (some s1) (some s2) =
        jsOrOpt (matrixLookup culturalCompatibilityMatrix (some s1) (some s2)) 0.5 by
      simp only [calculateCulturalCoordination]; exact if_neg he]
    have h := matrixVal_bounds culturalCompatibilityMatrix culturalMatrix_entry_bounds
      (some s1) (some s2)
    simpa [show (0.5 : ℚ) = 1/2 by norm_num] using h

/-! ### Concrete evaluations of the witness agent -/

theorem wCorrEval : calculateCorrelation [1/2, 1/2] [1/2, 1/2] = 0 := by
  norm_num [calculateCorrelation]

theorem wCompatEval : checkComponentCompatibility (uevComponents wUev) = 0 := by
  simp only [uevComponents, wUev, checkComponentCompatibility, listPairs,
    List.map_cons, List.map_nil, List.append_nil, List.cons_append, List.nil_append,
    wCorrEval, abs_zero]
  norm_num

theorem clamp01_eq_self {x : ℝ} (h0 : 0 ≤ x) (h1 : x ≤ 1) : clamp01 x = x := by
  rw [clamp01, min_eq_right h1, max_eq_right h0]

theorem wTContEval : checkTemporalContinuity wUev = some 1 := by
  norm_num [checkTemporalContinuity, wUev]
  exact fun h => absurd h (by simp)

theorem wTCFEval : calculateTCF wUev = some (3/10 : ℝ) := by
  rw [calculateTCF, wCompatEval, wTContEval]
  norm_num

theorem wBCEval : calculateBeliefConsistency (some [("x", 1/2)]) = some (9/10) := by
  norm_num [calculateBeliefConsistency, abs_of_nonneg, max_eq_right]

theorem wICEval : calculateInternalCoherence wBroa = some (3/5) := by
  rw [calculateInternalCoherence, show wBroa.beliefs = some [("x", 1/2)] from rfl, wBCEval]
  norm_num [wBroa, calculateRuleCoherence, calculateOntologyAlignment, jsOr0]

theorem wPIEval : calculatePresentIntegration wUev wBroa = some (21/50 : ℝ) := by
  rw [calculatePresentIntegration, wTCFEval, wICEval]
  norm_num

theorem wPCEval : calculateProspectiveCoherence wProj none = 2/5 := by
  norm_num [calculateProspectiveCoherence, calculateProjectionAlignment, wProj,
    calculateAdaptiveCapacity, calculateGoalDiversity, assessTimelineRealism, jsOrOpt]

theorem wMCCEval : calculateMetaConstructorCapacity wMod = 2/5 := by
  norm_num [calculateMetaConstructorCapacity, assessModificationAbility,
    assessCoherenceMaintenance, wMod, jsOr0]

theorem wHCEval : calculateHistoricalContinuity wCalc none 0 = 0 := rfl

theorem wInterpEval : interpretATCFScore (61/200 : ℝ) = wInterpretation := by
  rw [interpretATCFScore]
  norm_num [wInterpretation]

theorem wATCFEval : calculateATCF wCalc wAgent 0 = some wATCFRes := by
  rw [calculateATCF, show wAgent.uev_data = wUev from rfl,
    show wAgent.broa_data = wBroa from rfl, wPIEval]
  rw [Option.map_some']
  simp only [show wAgent.identity_history = none from rfl,
    show wAgent.identity_kernel = none from rfl,
    show wAgent.future_projections = wProj from rfl,
    show wAgent.self_modification_data = wMod from rfl,
    show wCalc.weights = wWeights from rfl, wHCEval, wPCEval, wMCCEval]
  have htot : (wWeights.alpha : ℝ) * 0 + (wWeights.beta : ℝ) * (21/50 : ℝ) +
      (wWeights.gamma : ℝ) * ((2/5 : ℚ) : ℝ) + (wWeights.delta : ℝ) * ((2/5 : ℚ) : ℝ) =
      61/200 := by
    norm_num [wWeights]
  rw [htot, wInterpEval]
  rw [show clamp01 (61/200 : ℝ) = 61/200 from clamp01_eq_self (by norm_num) (by norm_num),
    show clamp01 (0 : ℝ) = 0 from clamp01_eq_self (by norm_num) (by norm_num),
    show clamp01 (21/50 : ℝ) = 21/50 from clamp01_eq_self (by norm_num) (by norm_num),
    show clamp01 (((2/5 : ℚ) : ℝ)) = ((2/5 : ℚ) : ℝ) from
      clamp01_eq_self (by norm_num) (by norm_num)]
  simp only [wATCFRes, ATCFResult.mk.injEq]
  norm_num

theorem wCultEval :
    calculateCulturallyAdaptedATCF wTable wCalc wAgent 0 = (some wCultRes, wCalc) := by
  rw [calculateCulturallyAdaptedATCF]
  have hAd : adaptForCulture wTable wAgent.cultural_background wCalc.weights = wWeights := by
    simp [adaptForCulture, wTable, wAgent, wCalc]
  rw [hAd]
  have hState : ({ wCalc with weights := wWeights } : Calculator) = wCalc := rfl
  rw [hState, wATCFEval]
  simp [wCultRes, show wCalc.weights = wWeights from rfl,
    show wAgent.cultural_background = none from rfl]
  rfl

theorem wPRFEval : calculatePRFCompatibility wBroa wBroa = 2/3 := by
  have hb : calculateBeliefCompatibility wBroa.beliefs wBroa.beliefs = 1 := by
    rw [show wBroa.beliefs = some [("x", 1/2)] from rfl]
    norm_num [calculateBeliefCompatibility, alookup]
  have ha : calculateAuthenticityCompatibility wBroa.authenticity wBroa.authenticity = 2/3 := by
    rw [show wBroa.authenticity = some ⟨none, 1/2, 1/2⟩ from rfl]
    norm_num [calculateAuthenticityCompatibility, calculateIdentityKernelOverlap]
  rw [calculatePRFCompatibility, hb, ha,
    show wBroa.rules = none from rfl, show wBroa.ontology = none from rfl]
  norm_num [calculateRuleCompatibility, calculateOntologyCompatibility]

theorem wCapEval : calculateCapabilityOverlap (some []) (some []) = 3/10 := by
  norm_num [calculateCapabilityOverlap]

theorem wCCoordEval : calculateCulturalCoordination none none = 1/2 := by
  norm_num [calculateCulturalCoordination]

theorem wRecEval : generateCoordinationRecommendation (2599/6000 : ℝ) = wRec := by
  rw [generateCoordinationRecommendation]
  norm_num [wRec]

theorem wStratEval : identifyInterventionStrategies (2599/6000 : ℝ) (2/3) (3/10) (1/2) =
    [comprehensiveCoordinationStrategy, culturalBridgingStrategy,
     capabilityDevelopmentStrategy] := by
  rw [identifyInterventionStrategies, builtStrategies]
  rw [if_neg (by norm_num : ¬((2/3 : ℚ) < 0.6)), if_pos (by norm_num : (3/10 : ℚ) < 0.5),
    if_pos (by norm_num : (1/2 : ℚ) < 0.6), if_pos (by norm_num : (2599/6000 : ℝ) < 0.5)]
  simp [List.insertionSort, List.orderedInsert, priorityOrder,
    comprehensiveCoordinationStrategy, culturalBridgingStrategy,
    capabilityDevelopmentStrategy]

theorem wAssessEval :
    assessCrossAgentCoordination wTable wCalc wAgent wAgent 0 = (some wCoordRes, wCalc) := by
  rw [assessCrossAgentCoordination]
  simp only [wCultEval, show wAgent.broa_data = wBroa from rfl,
    show wAgent.capabilities = (none : Option (List String)) from rfl,
    show wAgent.cultural_background = (none : Option String) from rfl,
    Option.getD_none, wPRFEval, wCapEval, wCCoordEval, min_self,
    show wCultRes.base.total_score = (61/200 : ℝ) from rfl]
  have hcp : (0.3 * (61/200 : ℝ) + 0.25 * ((2/3 : ℚ) : ℝ) + 0.25 * ((3/10 : ℚ) : ℝ) +
      0.2 * ((1/2 : ℚ) : ℝ)) = 2599/6000 := by
    push_cast
    norm_num
  rw [hcp, wRecEval, wStratEval,
    show clamp01 (2599/6000 : ℝ) = 2599/6000 from clamp01_eq_self (by norm_num) (by norm_num)]
  rw [wCoordRes]

/-! ### Claim theorems -/

/-- C5: cultural weight adaptation returns the input weights unchanged when the
culture tag is not in the modifier table; when the tag is known and all input
weights and modifiers are positive it returns the elementwise product
renormalized so the four output coefficients sum to exactly 1. -/
theorem c5_adaptForCulture :
    (∀ (table : String → Option Weights) (culture : Option String) (w : Weights),
      culture.bind table = none → adaptForCulture table culture w = w) ∧
    (∀ (table : String → Option Weights) (culture : Option String) (w m : Weights),
      culture.bind table = some m →
      0 < w.alpha → 0 < w.beta → 0 < w.gamma → 0 < w.delta →
      0 < m.alpha → 0 < m.beta → 0 < m.gamma → 0 < m.delta →
      adaptForCulture table culture w =
        ⟨w.alpha * m.alpha /
            (w.alpha * m.alpha + w.beta * m.beta + w.gamma * m.gamma + w.delta * m.delta),
          w.beta * m.beta /
            (w.alpha * m.alpha + w.beta * m.beta + w.gamma * m.gamma + w.delta * m.delta),
          w.gamma * m.gamma /
            (w.alpha * m.alpha + w.beta * m.beta + w.gamma * m.gamma + w.delta * m.delta),
          w.delta * m.delta /
            (w.alpha * m.alpha + w.beta * m.beta + w.gamma * m.gamma + w.delta * m.delta)⟩ ∧
      (adaptForCulture table culture w).total = 1) := by
  constructor
  · intro table culture w h
    simp only [adaptForCulture, h]
  · intro table culture w m h ha hb hc hd hma hmb hmc hmd
    have ht : 0 < w.alpha * m.alpha + w.beta * m.beta + w.gamma * m.gamma + w.delta * m.delta := by
      positivity
    have heq : adaptForCulture table culture w =
        ⟨w.alpha * m.alpha /
            (w.alpha * m.alpha + w.beta * m.beta + w.gamma * m.gamma + w.delta * m.delta),
          w.beta * m.beta /
            (w.alpha * m.alpha + w.beta * m.beta + w.gamma * m.gamma + w.delta * m.delta),
          w.gamma * m.gamma /
            (w.alpha * m.alpha + w.beta * m.beta + w.gamma * m.gamma + w.delta * m.delta),
          w.delta * m.delta /
            (w.alpha * m.alpha + w.beta * m.beta + w.gamma * m.gamma + w.delta * m.delta)⟩ := by
      simp only [adaptForCulture, h, Weights.total]
    refine ⟨heq, ?_⟩
    rw [heq, Weights.total]
    field_simp

/-- C5 witness: a concrete table with positive modifiers for one culture. -/
theorem c5_witness :
    adaptForCulture cTable5 (some "collectivistic") wWeights = ⟨1/10, 2/5, 1/5, 3/10⟩ ∧
    (adaptForCulture cTable5 (some "collectivistic") wWeights).total = 1 := by
  have h := c5_adaptForCulture.2 cTable5 (some "collectivistic") wWeights ⟨1/2, 2, 1, 3/2⟩
    (by norm_num [cTable5]) (by norm_num [wWeights]) (by norm_num [wWeights])
    (by norm_num [wWeights]) (by norm_num [wWeights]) (by norm_num) (by norm_num)
    (by norm_num) (by norm_num)
  refine ⟨?_, h.2⟩
  rw [h.1]
  norm_num [wWeights]

/-- C6 counterexample: the weight set (0.2505, 0.25, 0.25, 0.25) is accepted by
the 0.001-tolerance validation although its sum is not within 1e-9 of 1. -/
theorem c6_counterexample :
    mkCalculator cBadWeights = some ⟨cBadWeights, 30⟩ ∧
    ¬(|cBadWeights.total - 1| ≤ 1/1000000000) := by
  refine ⟨?_, by norm_num [cBadWeights, Weights.total, abs_of_pos]⟩
  rw [mkCalculator,
    if_pos (show |cBadWeights.total - 1| ≤ 0.001 by norm_num [cBadWeights, Weights.total, abs_of_pos])]

/-- C6 amended: construction fails exactly when the coefficients do not sum to
1.0 within tolerance 0.001, and every accepted weight set sums to 1.0 within
0.001 (not within 1e-9). -/
theorem c6_amended :
    ∀ w : Weights, (mkCalculator w = none ↔ 0.001 < |w.total - 1|) ∧
      (∀ c, mkCalculator w = some c → |w.total - 1| ≤ 0.001 ∧ c = ⟨w, 30⟩) := by
  intro w
  by_cases h : |w.total - 1| ≤ 0.001
  · rw [mkCalculator, if_pos h]
    refine ⟨⟨fun hc => absurd hc (by simp), fun hc => absurd h (not_le.mpr hc)⟩, ?_⟩
    intro c hc
    exact ⟨h, (Option.some.inj hc).symm⟩
  · rw [mkCalculator, if_neg h]
    exact ⟨⟨fun _ => not_le.mp h, fun _ => rfl⟩, fun c hc => absurd hc (by simp)⟩

/-- C6 witness: the default weights are accepted and stored unchanged. -/
theorem c6_witness : |wWeights.total - 1| ≤ 0.001 ∧ wCalc = ⟨wWeights, 30⟩ :=
  (c6_amended wWeights).2 wCalc
    (by
      rw [mkCalculator, if_pos (show |wWeights.total - 1| ≤ 0.001 by
        norm_num [wWeights, Weights.total])]
      rfl)

/-- C7: for non-empty capability sets the overlap score is
`0.4 * Jaccard + 0.6 * min(1, 2 * complementarity)`; the sets {"a","b"} and
{"a","c"} score 0.4*(1/3) + 0.6*1 = 11/15; an empty or missing set yields 0.3. -/
theorem c7_capabilityOverlap :
    (∀ c1 c2 : List String, c1 ≠ [] → c2 ≠ [] →
      calculateCapabilityOverlap (some c1) (some c2) =
        0.4 * jaccardOverlap c1 c2 + 0.6 * min 1 (2 * complementarity c1 c2)) ∧
    calculateCapabilityOverlap (some ["a", "b"]) (some ["a", "c"]) = 11/15 ∧
    (∀ c1 c2 : Option (List String),
      (c1 = none ∨ c2 = none ∨ c1 = some [] ∨ c2 = some []) →
      calculateCapabilityOverlap c1 c2 = 0.3) := by
  have hformula : ∀ c1 c2 : List String, c1 ≠ [] → c2 ≠ [] →
      calculateCapabilityOverlap (some c1) (some c2) =
        0.4 * jaccardOverlap c1 c2 + 0.6 * min 1 (2 * complementarity c1 c2) := by
    intro c1 c2 h1 h2
    rw [show calculateCapabilityOverlap (some c1) (some c2) =
        0.4 * (((c1.toFinset ∩ c2.toFinset).card : ℚ) / ((c1.toFinset ∪ c2.toFinset).card : ℚ)) +
        0.6 * min 1 ((((c1.toFinset ∪ c2.toFinset).card : ℚ) -
          ((c1.toFinset ∩ c2.toFinset).card : ℚ)) / ((c1.toFinset ∪ c2.toFinset).card : ℚ) * 2) by
      simp only [calculateCapabilityOverlap]
      exact if_neg (by push_neg; exact ⟨h1, h2⟩)]
    rw [jaccardOverlap, complementarity, mul_comm (2 : ℚ)]
  refine ⟨hformula, ?_, ?_⟩
  · rw [hformula ["a", "b"] ["a", "c"] (by simp) (by simp), jaccardOverlap, complementarity,
      show ((["a", "b"].toFinset ∩ ["a", "c"].toFinset).card) = 1 by decide,
      show ((["a", "b"].toFinset ∪ ["a", "c"].toFinset).card) = 3 by decide]
    norm_num
  · intro c1 c2 h
    rcases c1 with _ | l1
    · rcases c2 with _ | l2 <;> rfl
    rcases c2 with _ | l2
    · rfl
    rcases h with h | h | h | h
    · exact absurd h (by simp)
    · exact absurd h (by simp)
    · rw [show l1 = [] from Option.some.inj h]
      simp [calculateCapabilityOverlap]
    · rw [show l2 = [] from Option.some.inj h]
      simp [calculateCapabilityOverlap]

/-- C7 witness: the formula instantiated at the non-empty sets of the scenario. -/
theorem c7_witness :
    calculateCapabilityOverlap (some ["a", "b"]) (some ["a", "c"]) =
      0.4 * jaccardOverlap ["a", "b"] ["a", "c"] +
      0.6 * min 1 (2 * complementarity ["a", "b"] ["a", "c"]) :=
  c7_capabilityOverlap.1 ["a", "b"] ["a", "c"] (by simp) (by simp)

/-- C10: a stated 0 in coherence_maintenance_capacity yields the 0.5 default; a
stated 0 in alignment_with_identity is replaced by the computed goal-kernel
overlap score; a stated 0 in authenticity value_alignment yields 0.75. -/
theorem c10_zero_is_falsy :
    (∀ modData : SelfModData, modData.coherence_maintenance_capacity = 0 →
      assessCoherenceMaintenance modData = 0.5) ∧
    (∀ (proj : FutureProjections) (gs k : List String), proj.goals = some gs →
      proj.alignment_with_identity = 0 →
      calculateProjectionAlignment proj (some k) = goalKernelAlignmentScore gs k) ∧
    (∀ (broa : BroaData) (auth : AuthRecord), broa.authenticity = some auth →
      auth.value_alignment = 0 →
      calculateInternalCoherence broa = (calculateBeliefConsistency broa.beliefs).map
        fun bc => (bc + calculateRuleCoherence broa.rules +
          calculateOntologyAlignment broa.ontology + 0.75) / 4) := by
  refine ⟨?_, ?_, ?_⟩
  · intro modData h
    rw [assessCoherenceMaintenance, h, jsOr0, if_pos rfl]
  · intro proj gs k hg ha
    simp only [calculateProjectionAlignment, hg, ha, jsOr0, eq_self_iff_true, if_true]
    ring
  · intro broa auth hb ha
    simp only [calculateInternalCoherence, hb, ha, jsOr0, if_pos rfl]
    cases calculateBeliefConsistency broa.beliefs <;> rfl

/-- C10 witness: the three defaults at concrete records containing a stated 0. -/
theorem c10_witness :
    assessCoherenceMaintenance ⟨none, 0⟩ = 0.5 ∧
    calculateProjectionAlignment ⟨some ["explore"], none, 0⟩ (some ["explorer"]) =
      goalKernelAlignmentScore ["explore"] ["explorer"] ∧
    calculateInternalCoherence ⟨none, none, none, some ⟨none, 0, 1/2⟩⟩ =
      (calculateBeliefConsistency none).map fun bc =>
        (bc + calculateRuleCoherence none + calculateOntologyAlignment none + 0.75) / 4 :=
  ⟨c10_zero_is_falsy.1 ⟨none, 0⟩ rfl,
   c10_zero_is_falsy.2.1 ⟨some ["explore"], none, 0⟩ ["explore"] ["explorer"] rfl rfl,
   c10_zero_is_falsy.2.2 ⟨none, none, none, some ⟨none, 0, 1/2⟩⟩ ⟨none, 0, 1/2⟩ rfl rfl⟩

/-- C4: the code does not degrade gracefully on a present-but-empty beliefs
record: `calculateBeliefConsistency` throws (none) on an empty beliefs object
and the whole ATCF computation fails with it, instead of returning the
documented neutral default 0.5. -/
theorem c4_empty_beliefs_throws :
    calculateBeliefConsistency (some []) = none ∧
    calculateATCF wCalc cAgentEmptyBeliefs 0 = none := by
  constructor
  · rfl
  · have hic : calculateInternalCoherence cAgentEmptyBeliefs.broa_data = none := rfl
    have hpi : calculatePresentIntegration cAgentEmptyBeliefs.uev_data
        cAgentEmptyBeliefs.broa_data = none := by
      rw [calculatePresentIntegration, show cAgentEmptyBeliefs.uev_data = wUev from rfl,
        wTCFEval, hic]
      rfl
    rw [calculateATCF, hpi]
    rfl

/-- C2 counterexample: with current kernel ["a"] and a single history snapshot
whose kernel is ["b"], taken at the current time, the code scores 1 (it
compares the snapshot against history[0], i.e. against itself) while the
spec formula against the current kernel of the agent scores 0. -/
theorem c2_counterexample :
    calculateHistoricalContinuity wCalc (some cHist2) 0 = 1 ∧
    specHistoricalContinuityCurrent ["a"] (some cHist2) 0 = 0 ∧
    calculateHistoricalContinuity wCalc (some cHist2) 0 ≠
      specHistoricalContinuityCurrent ["a"] (some cHist2) 0 := by
  have hsim : calculateIdentitySimilarity ["b"] ["b"] = 1 := by
    norm_num [calculateIdentitySimilarity,
      show ((["b"].toFinset ∩ ["b"].toFinset).card) = 1 by decide,
      show ((["b"].toFinset ∪ ["b"].toFinset).card) = 1 by decide]
  have hsim0 : calculateIdentitySimilarity ["a"] ["b"] = 0 := by
    rw [calculateIdentitySimilarity, if_neg (by simp)]
    show (((["a"].toFinset ∩ ["b"].toFinset).card : ℚ) /
      ((["a"].toFinset ∪ ["b"].toFinset).card : ℚ)) = 0
    rw [show (["a"].toFinset ∩ ["b"].toFinset) = ∅ by decide]
    simp
  have h1 : calculateHistoricalContinuity wCalc (some cHist2) 0 = 1 := by
    simp only [calculateHistoricalContinuity, cHist2, List.foldl_cons, List.foldl_nil, hsim]
    norm_num [wCalc, Real.exp_zero]
  have h2 : specHistoricalContinuityCurrent ["a"] (some cHist2) 0 = 0 := by
    simp only [specHistoricalContinuityCurrent, cHist2, List.map_cons, List.map_nil,
      List.sum_cons, List.sum_nil, hsim0]
    norm_num
  exact ⟨h1, h2, by rw [h1, h2]; norm_num⟩

/-- C2 amended: for a calculator with decay constant 30, the historical
continuity sub-score is the exp(-Δdays/30)-weighted average over all snapshots
of the Jaccard similarity between the kernel of the FIRST history snapshot (not the
current identity kernel of the agent) and each snapshot kernel, and it is exactly
0 for an absent or empty history. -/
theorem c2_amended :
    ∀ c : Calculator, c.temporalDecayConstant = 30 →
    ∀ (hist : Option (List HistoryPoint)) (t : ℚ),
      calculateHistoricalContinuity c hist t = specHistoricalContinuityFirst hist t ∧
      ((hist = none ∨ hist = some []) → calculateHistoricalContinuity c hist t = 0) := by
  intro c hc hist t
  constructor
  · rcases hist with _ | (_ | ⟨p, rest⟩)
    · rfl
    · rfl
    · simp only [calculateHistoricalContinuity, specHistoricalContinuityFirst, hc]
      rw [foldl_pair_sum
        (fun q => Real.exp (-((((t - q.timestamp) / (1000 * 60 * 60 * 24) : ℚ) : ℝ) / ((30 : ℚ) : ℝ))) *
          ((calculateIdentitySimilarity p.identity_kernel q.identity_kernel : ℚ) : ℝ))
        (fun q => Real.exp (-((((t - q.timestamp) / (1000 * 60 * 60 * 24) : ℚ) : ℝ) / ((30 : ℚ) : ℝ))))]
      have hwfun : ∀ q : HistoryPoint,
          Real.exp (-((((t - q.timestamp) / (1000 * 60 * 60 * 24) : ℚ) : ℝ) / ((30 : ℚ) : ℝ))) =
          specTemporalWeight t q.timestamp := by
        intro q
        rw [specTemporalWeight]
        norm_num
      simp only [hwfun, zero_add]
      have hpos : 0 < ((p :: rest).map fun q => specTemporalWeight t q.timestamp).sum := by
        refine List.sum_pos _ ?_ (by simp)
        intro x hx
        rcases List.mem_map.mp hx with ⟨q, _, rfl⟩
        exact Real.exp_pos _
      rw [if_pos hpos]
  · rintro (rfl | rfl) <;> rfl

/-- C2 witness: an empty history scores exactly 0. -/
theorem c2_witness : calculateHistoricalContinuity wCalc (some []) 0 = 0 :=
  (c2_amended wCalc rfl (some []) 0).2 (Or.inr rfl)

/-- C9: whenever calculateCulturallyAdaptedATCF returns a result, the
stored weights of the calculator are restored to their value before the call, and a
second invocation from the post-call state with the same agent data and
timestamp returns the same result. -/
theorem c9_cultural_call_restores_state :
    ∀ (table : String → Option Weights) (c : Calculator) (a : AgentData) (t : ℚ)
      (r : CulturallyAdaptedResult),
      (calculateCulturallyAdaptedATCF table c a t).1 = some r →
      (calculateCulturallyAdaptedATCF table c a t).2 = c ∧
      (calculateCulturallyAdaptedATCF table
        ((calculateCulturallyAdaptedATCF table c a t).2) a t).1 = some r := by
  intro table c a t r h
  have hstate : (calculateCulturallyAdaptedATCF table c a t).2 = c := by
    rw [calculateCulturallyAdaptedATCF] at h ⊢
    cases hA : calculateATCF ⟨adaptForCulture table a.cultural_background c.weights,
        c.temporalDecayConstant⟩ a t with
    | none =>
      rw [hA] at h
      exact absurd h (by simp)
    | some res =>
      rfl
  exact ⟨hstate, by rw [hstate]; exact h⟩

/-- C9 witness: the call on the concrete witness agent succeeds, restores the
default calculator state, and repeats identically. -/
theorem c9_witness :
    (calculateCulturallyAdaptedATCF wTable wCalc wAgent 0).2 = wCalc ∧
    (calculateCulturallyAdaptedATCF wTable
      ((calculateCulturallyAdaptedATCF wTable wCalc wAgent 0).2) wAgent 0).1 = some wCultRes :=
  c9_cultural_call_restores_state wTable wCalc wAgent 0 wCultRes (by rw [wCultEval])

/-- C3 counterexample: on the witness present-state data the
present-integration sub-score computed by the code is 0.42 while the spec formula
`0.6 * compatibilityScore + 0.4 * internalCoherence` gives 0.6*0 + 0.4*0.6 =
0.24: the code blends the compatibility score with temporal continuity first. -/
theorem c3_counterexample :
    calculatePresentIntegration wUev wBroa = some (21/50 : ℝ) ∧
    checkComponentCompatibility (uevComponents wUev) = 0 ∧
    calculateInternalCoherence wBroa = some (3/5) ∧
    (21/50 : ℝ) ≠ 0.6 * checkComponentCompatibility (uevComponents wUev) +
      0.4 * ((3/5 : ℚ) : ℝ) := by
  refine ⟨wPIEval, wCompatEval, wICEval, ?_⟩
  rw [wCompatEval]
  push_cast
  norm_num

/-- C3 amended: the present-integration sub-score is
`0.6 * (0.7 * compatibilityScore + 0.3 * temporalContinuity) + 0.4 * internalCoherence`,
where compatibilityScore is the mean absolute pairwise correlation of the four
present-state components. -/
theorem c3_amended :
    ∀ (uev : UevData) (broa : BroaData) (pi : ℝ),
      calculatePresentIntegration uev broa = some pi →
      ∃ tc ic, checkTemporalContinuity uev = some tc ∧
        calculateInternalCoherence broa = some ic ∧
        pi = 0.6 * (0.7 * checkComponentCompatibility (uevComponents uev) + 0.3 * (tc : ℝ)) +
          0.4 * (ic : ℝ) := by
  intro uev broa pi h
  rw [calculatePresentIntegration, calculateTCF] at h
  cases htc : checkTemporalContinuity uev with
  | none => rw [htc] at h; exact absurd h (by simp)
  | some tc =>
    rw [htc] at h
    cases hic : calculateInternalCoherence broa with
    | none => rw [hic] at h; exact absurd h (by simp)
    | some ic =>
      rw [hic] at h
      exact ⟨tc, ic, rfl, rfl, (Option.some.inj h).symm⟩

/-- C3 witness: the amended formula instantiated at the witness data. -/
theorem c3_witness :
    ∃ tc ic, checkTemporalContinuity wUev = some tc ∧
      calculateInternalCoherence wBroa = some ic ∧
      (21/50 : ℝ) = 0.6 * (0.7 * checkComponentCompatibility (uevComponents wUev) +
        0.3 * (tc : ℝ)) + 0.4 * (ic : ℝ) :=
  c3_amended wUev wBroa (21/50 : ℝ) wPIEval

theorem strategies_eq_of_critical (cp : ℝ) (prf cap cult : ℚ) (h : cp < 0.5) :
    identifyInterventionStrategies cp prf cap cult =
      comprehensiveCoordinationStrategy ::
        ((if prf < 0.6 then [prfAlignmentStrategy] else []) ++
         (if cult < 0.6 then [culturalBridgingStrategy] else []) ++
         (if cap < 0.5 then [capabilityDevelopmentStrategy] else [])) := by
  rw [identifyInterventionStrategies, builtStrategies, if_pos h]
  by_cases hp : prf < 0.6 <;> by_cases hc : cap < 0.5 <;> by_cases hcl : cult < 0.6 <;>
    simp [hp, hc, hcl, List.insertionSort, List.orderedInsert, priorityOrder,
      prfAlignmentStrategy, capabilityDevelopmentStrategy, culturalBridgingStrategy,
      comprehensiveCoordinationStrategy]

theorem strategies_sorted_of_critical (cp : ℝ) (prf cap cult : ℚ) (h : cp < 0.5) :
    (identifyInterventionStrategies cp prf cap cult).Sorted
      (fun a b => priorityOrder b.priority ≤ priorityOrder a.priority) := by
  rw [strategies_eq_of_critical cp prf cap cult h]
  by_cases hp : prf < 0.6 <;> by_cases hc : cap < 0.5 <;> by_cases hcl : cult < 0.6 <;>
    simp [hp, hc, hcl, List.sorted_cons, priorityOrder,
      prfAlignmentStrategy, capabilityDevelopmentStrategy, culturalBridgingStrategy,
      comprehensiveCoordinationStrategy]

/-- C8: whenever the returned composite coordination potential is below 0.5,
the intervention-strategy list starts with the critical
comprehensive_coordination strategy and is sorted descending by priority rank
with the build order preserved among equal priorities (the two high-priority
strategies keep their prf-before-cultural order). -/
theorem c8_critical_strategy_first :
    ∀ (table : String → Option Weights) (c : Calculator) (a1 a2 : AgentData) (now : ℚ)
      (r : CoordinationResult),
      (assessCrossAgentCoordination table c a1 a2 now).1 = some r →
      r.coordination_potential < 0.5 →
      (r.intervention_strategies.head? = some comprehensiveCoordinationStrategy ∧
       comprehensiveCoordinationStrategy ∈ r.intervention_strategies ∧
       comprehensiveCoordinationStrategy.type = "comprehensive_coordination" ∧
       comprehensiveCoordinationStrategy.priority = "critical" ∧
       r.intervention_strategies.Sorted
         (fun a b => priorityOrder b.priority ≤ priorityOrder a.priority) ∧
       r.intervention_strategies =
         comprehensiveCoordinationStrategy ::
           ((if r.prf_compatibility < 0.6 then [prfAlignmentStrategy] else []) ++
            (if r.cultural_coordination < 0.6 then [culturalBridgingStrategy] else []) ++
            (if r.capability_overlap < 0.5 then [capabilityDevelopmentStrategy] else []))) := by
  intro table c a1 a2 now r h hlt
  rw [assessCrossAgentCoordination] at h
  rcases hA1 : calculateCulturallyAdaptedATCF table c a1 now with ⟨r1, c1⟩
  rw [hA1] at h
  cases r1 with
  | none => exact absurd h (by simp)
  | some atcf1 =>
    dsimp only at h
    rcases hA2 : calculateCulturallyAdaptedATCF table c1 a2 now with ⟨r2, c2⟩
    cases r2 with
    | none =>
      rw [hA2] at h
      exact absurd h (by simp)
    | some atcf2 =>
      rw [hA2] at h
      dsimp only at h
      have hr : r = _ := (Option.some.inj h).symm
      have hpot : r.coordination_potential =
          clamp01 (0.3 * min atcf1.base.total_score atcf2.base.total_score +
            0.25 * ((calculatePRFCompatibility a1.broa_data a2.broa_data : ℚ) : ℝ) +
            0.25 * ((calculateCapabilityOverlap (some (a1.capabilities.getD []))
              (some (a2.capabilities.getD [])) : ℚ) : ℝ) +
            0.2 * ((calculateCulturalCoordination a1.cultural_background
              a2.cultural_background : ℚ) : ℝ)) := by rw [hr]
      have hstrat : r.intervention_strategies =
          identifyInterventionStrategies
            (0.3 * min atcf1.base.total_score atcf2.base.total_score +
              0.25 * ((calculatePRFCompatibility a1.broa_data a2.broa_data : ℚ) : ℝ) +
              0.25 * ((calculateCapabilityOverlap (some (a1.capabilities.getD []))
                (some (a2.capabilities.getD [])) : ℚ) : ℝ) +
              0.2 * ((calculateCulturalCoordination a1.cultural_background
                a2.cultural_background : ℚ) : ℝ))
            (calculatePRFCompatibility a1.broa_data a2.broa_data)
            (calculateCapabilityOverlap (some (a1.capabilities.getD []))
              (some (a2.capabilities.getD [])))
            (calculateCulturalCoordination a1.cultural_background a2.cultural_background) := by
        rw [hr]
      have hprf : r.prf_compatibility =
          calculatePRFCompatibility a1.broa_data a2.broa_data := by rw [hr]
      have hcap : r.capability_overlap =
          calculateCapabilityOverlap (some (a1.capabilities.getD []))
            (some (a2.capabilities.getD [])) := by rw [hr]
      have hcult : r.cultural_coordination =
          calculateCulturalCoordination a1.cultural_background a2.cultural_background := by
        rw [hr]
      rw [hpot] at hlt
      have hcp := clamp01_lt_of_lt (by norm_num) hlt
      refine ⟨?_, ?_, rfl, rfl, ?_, ?_⟩
      · rw [hstrat, strategies_eq_of_critical _ _ _ _ hcp]
        rfl
      · rw [hstrat, strategies_eq_of_critical _ _ _ _ hcp]
        exact List.mem_cons_self _ _
      · rw [hstrat]
        exact strategies_sorted_of_critical _ _ _ _ hcp
      · rw [hstrat, hprf, hcap, hcult]
        exact strategies_eq_of_critical _ _ _ _ hcp

/-- C8 witness: the coordination potential of the witness pair is 0.433 < 0.5 and
its strategy list leads with the critical comprehensive strategy. -/
theorem c8_witness :
    (assessCrossAgentCoordination wTable wCalc wAgent wAgent 0).1 = some wCoordRes ∧
    wCoordRes.coordination_potential < 0.5 ∧
    wCoordRes.intervention_strategies.head? = some comprehensiveCoordinationStrategy := by
  have h := c8_critical_strategy_first wTable wCalc wAgent wAgent 0 wCoordRes
    (by rw [wAssessEval]) (by norm_num [wCoordRes])
  exact ⟨by rw [wAssessEval], by norm_num [wCoordRes], h.1⟩

/-- C1: every numeric score returned by the two public computations lies in
[0,1]: the ATCF total and four component scores unconditionally, and the four
coordination scores for agent profiles whose numeric attributes are scores in
[0,1] (prf_compatibility is returned unclamped, so its bounds rest on the
data-model range of the belief and authenticity values). -/
theorem c1_scores_in_unit_interval :
    (∀ (c : Calculator) (a : AgentData) (t : ℚ) (r : ATCFResult),
      calculateATCF c a t = some r →
      (0 ≤ r.total_score ∧ r.total_score ≤ 1) ∧
      (0 ≤ r.HC ∧ r.HC ≤ 1) ∧ (0 ≤ r.PI ∧ r.PI ≤ 1) ∧
      (0 ≤ r.PC ∧ r.PC ≤ 1) ∧ (0 ≤ r.MCC ∧ r.MCC ≤ 1)) ∧
    (∀ (table : String → Option Weights) (c : Calculator) (a1 a2 : AgentData) (now : ℚ)
      (r : CoordinationResult),
      ValidBroa a1.broa_data → ValidBroa a2.broa_data →
      (assessCrossAgentCoordination table c a1 a2 now).1 = some r →
      (0 ≤ r.coordination_potential ∧ r.coordination_potential ≤ 1) ∧
      (0 ≤ r.prf_compatibility ∧ r.prf_compatibility ≤ 1) ∧
      (0 ≤ r.capability_overlap ∧ r.capability_overlap ≤ 1) ∧
      (0 ≤ r.cultural_coordination ∧ r.cultural_coordination ≤ 1)) := by
  constructor
  · intro c a t r h
    rw [calculateATCF] at h
    cases hpi : calculatePresentIntegration a.uev_data a.broa_data with
    | none => rw [hpi] at h; exact absurd h (by simp)
    | some pi =>
      rw [hpi] at h
      have hr : r = _ := (Option.some.inj h).symm
      subst hr
      exact ⟨⟨clamp01_nonneg _, clamp01_le_one _⟩, ⟨clamp01_nonneg _, clamp01_le_one _⟩,
        ⟨clamp01_nonneg _, clamp01_le_one _⟩, ⟨clamp01_nonneg _, clamp01_le_one _⟩,
        ⟨clamp01_nonneg _, clamp01_le_one _⟩⟩
  · intro table c a1 a2 now r hv1 hv2 h
    rw [assessCrossAgentCoordination] at h
    rcases hA1 : calculateCulturallyAdaptedATCF table c a1 now with ⟨r1, c1⟩
    rw [hA1] at h
    cases r1 with
    | none => exact absurd h (by simp)
    | some atcf1 =>
      dsimp only at h
      rcases hA2 : calculateCulturallyAdaptedATCF table c1 a2 now with ⟨r2, c2⟩
      cases r2 with
      | none =>
        rw [hA2] at h
        exact absurd h (by simp)
      | some atcf2 =>
        rw [hA2] at h
        dsimp only at h
        have hr : r = _ := (Option.some.inj h).symm
        subst hr
        exact ⟨⟨clamp01_nonneg _, clamp01_le_one _⟩,
          calculatePRFCompatibility_bounds hv1 hv2,
          calculateCapabilityOverlap_bounds _ _,
          calculateCulturalCoordination_bounds _ _⟩

/-- C1 witness: the witness agent is valid and its coordination assessment
returns scores inside [0,1]. -/
theorem c1_witness :
    ValidBroa wAgent.broa_data ∧
    (assessCrossAgentCoordination wTable wCalc wAgent wAgent 0).1 = some wCoordRes ∧
    ((0 ≤ wCoordRes.coordination_potential ∧ wCoordRes.coordination_potential ≤ 1) ∧
     (0 ≤ wCoordRes.prf_compatibility ∧ wCoordRes.prf_compatibility ≤ 1) ∧
     (0 ≤ wCoordRes.capability_overlap ∧ wCoordRes.capability_overlap ≤ 1) ∧
     (0 ≤ wCoordRes.cultural_coordination ∧ wCoordRes.cultural_coordination ≤ 1)) := by
  have hv : ValidBroa wAgent.broa_data := by
    constructor
    · intro l hl p hp
      have hl' : [("x", (1/2 : ℚ))] = l := Option.some.inj hl
      rw [← hl'] at hp
      have hp' : p = ("x", (1/2 : ℚ)) := by simpa using hp
      rw [hp']
      norm_num
    · intro a ha
      have ha' : (⟨none, 1/2, 1/2⟩ : AuthRecord) = a := Option.some.inj ha
      rw [← ha']
      norm_num
  exact ⟨hv, by rw [wAssessEval],
    c1_scores_in_unit_interval.2 wTable wCalc wAgent wAgent 0 wCoordRes hv hv
      (by rw [wAssessEval])⟩

end CCF
